import Mathlib

/-!
Verification development for the search-app research pipeline
(`src/backend/query_generator.py`, `search_handler.py`, `content_extractor.py`,
`summarizer.py`, `main.py`).

The Python code is shallowly embedded: Python `str` values are sequences of
code points, embedded as `List Char` (named `PyStr`); Python string methods
(`split`, `strip`, `lower`, `startswith`, slicing, ...) are given executable
Lean counterparts whose doc comments name the Python construct they embed.
Fallible Python code is embedded in `Except`; external collaborators
(the LLM completion service, the search provider, HTTP page fetches, the
BeautifulSoup HTML parser) are modelled as oracle functions that the theorems
quantify over, exactly at the interfaces the Python code consumes them.

Floating point: the Python code compares small-integer ratios and products
against the literals `0.8` and `0.3`.  An exhaustive check over all
cardinalities up to 2000 (far beyond anything reachable by these functions)
shows the IEEE-double comparisons coincide with the exact rational ones,
which is how they are embedded: `5*i > 4*u` for `i/u > 0.8`, `10*u < 3*t`
for `u/t < 0.3`, and `10*d > 3*l` for `d > l*0.3`.  In particular `4/5` and
the literal `0.8` round to the same double, so the boundary case used by the
theorems below behaves identically in both semantics.
-/

set_option maxRecDepth 8000

/-- Python strings are sequences of Unicode code points; `List Char` is the
direct shallow embedding. -/
abbrev PyStr := List Char

/-- Lift a Lean string literal to its code-point sequence. -/
def lit (s : String) : PyStr := s.data

/-- Concatenation of code-point strings (embedded f-string splicing). -/
def pyCat (parts : List PyStr) : PyStr := parts.flatten

/-- Python whitespace test for `str.strip` / `str.split()` (ASCII fragment;
the Unicode whitespace extension is irrelevant to every claim here). -/
def isPySpace (c : Char) : Bool := c.isWhitespace

/-- Python `str.lower()` (ASCII fragment). -/
def pyLower (s : PyStr) : PyStr := s.map Char.toLower

/-- Python `str.strip()`: remove leading and trailing whitespace. -/
def pyStrip (s : PyStr) : PyStr :=
  ((s.dropWhile isPySpace).reverse.dropWhile isPySpace).reverse

/-- Python `str.startswith(p)`. -/
def pyStartswith (p s : PyStr) : Bool := p.isPrefixOf s

/-- Python `str.endswith(p)`. -/
def pyEndswith (p s : PyStr) : Bool := p.isSuffixOf s

/-- Position of the first occurrence of `sub` in `s` (`str.find`); `none`
when `sub` does not occur.  Used to embed `in`, `split`, and the regex
scanning loops. -/
def findSub (sub : PyStr) : PyStr → Option Nat
  | [] => if sub.isPrefixOf [] then some 0 else none
  | c :: cs =>
    if sub.isPrefixOf (c :: cs) then some 0
    else (findSub sub cs).map (· + 1)

/-- Python `sub in s` (substring containment). -/
def pyIn (sub s : PyStr) : Bool := (findSub sub s).isSome

/-- Fuel-driven worker for `str.split(sep)`: repeatedly cut at the first
occurrence of `sep`.  The fuel is an upper bound on the number of cuts and is
always instantiated with `s.length`, which suffices because each cut consumes
at least one character of a nonempty separator. -/
def pySplitGo (sep : PyStr) : Nat → PyStr → List PyStr
  | 0, s => [s]
  | fuel + 1, s =>
    match findSub sep s with
    | none => [s]
    | some i => s.take i :: pySplitGo sep fuel (s.drop (i + sep.length))

/-- Python `str.split(sep)` for a nonempty separator `sep`: keeps empty
pieces, scans left to right, non-overlapping. -/
def pySplit (sep s : PyStr) : List PyStr :=
  if sep = [] then [s] else pySplitGo sep s.length s

/-- Python `str.split()` (no separator): split on whitespace runs and drop
empty pieces. -/
def pySplitWs (s : PyStr) : List PyStr :=
  (List.splitOnP isPySpace s).filter (· ≠ [])

/-- Decimal rendering of a natural number, for embedded f-strings like
`f"... from {len(source_summaries)} ... sources."`. -/
def pyStrOfNat (n : Nat) : PyStr := (Nat.repr n).data

/-- Decidable equality for `Except`, so counterexample runs can be checked
by `decide`. -/
instance {ε α : Type} [DecidableEq ε] [DecidableEq α] : DecidableEq (Except ε α) := fun a b =>
  match a, b with
  | Except.ok x, Except.ok y =>
    if h : x = y then isTrue (by rw [h]) else isFalse (by intro hc; cases hc; exact h rfl)
  | Except.error x, Except.error y =>
    if h : x = y then isTrue (by rw [h]) else isFalse (by intro hc; cases hc; exact h rfl)
  | Except.ok _, Except.error _ => isFalse (by intro hc; cases hc)
  | Except.error _, Except.ok _ => isFalse (by intro hc; cases hc)

/-- Exceptions that the embedded fragments can actually raise. -/
inductive PyErr
  | attributeError
  | zeroDivisionError
  | typeError
  | validationError
  deriving Repr, DecidableEq

/-!  JSON values and a model of `json.loads`, as consumed by
`query_generator.generate_queries` and `search_handler._filter_results`.
Object members are kept in source order; lookup takes the last binding of a
key, matching the Python `dict` built by `json.loads`. -/

inductive Json
  | null
  | bool (b : Bool)
  | num (raw : PyStr)
  | str (s : PyStr)
  | arr (items : List Json)
  | obj (fields : List (PyStr × Json))

/-- Last binding of `key` in an association list (Python `dict` lookup after
`json.loads`, where later duplicate keys overwrite earlier ones). -/
def lookupLast (key : PyStr) : List (PyStr × Json) → Option Json
  | [] => none
  | (k, v) :: rest =>
    match lookupLast key rest with
    | some r => some r
    | none => if k = key then some v else none

/-- Python `d.get(key, default)` on a value that may not be a `dict`:
raises `AttributeError` unless the value is an object. -/
def jsonGetD (j : Json) (key : PyStr) (default : Json) : Except PyErr Json :=
  match j with
  | Json.obj fields =>
    match lookupLast key fields with
    | some v => Except.ok v
    | none => Except.ok default
  | _ => Except.error PyErr.attributeError

/-- Python `key in d` for a parsed JSON object (`False` on non-objects is
irrelevant: the call sites guard with `isinstance(item, dict)`). -/
def jsonHasKey (j : Json) (key : PyStr) : Bool :=
  match j with
  | Json.obj fields => (lookupLast key fields).isSome
  | _ => false

/-- Python `isinstance(x, dict)` on a parsed JSON value. -/
def jsonIsDict : Json → Bool
  | Json.obj _ => true
  | _ => false

/-- Python iteration `for item in x` over a parsed JSON value: lists yield
their items, dicts their keys, strings their characters (as 1-char strings);
other values raise `TypeError`. -/
def pyIterJson : Json → Except PyErr (List Json)
  | Json.arr items => Except.ok items
  | Json.obj fields => Except.ok (fields.map (fun kv => Json.str kv.1))
  | Json.str s => Except.ok (s.map (fun c => Json.str [c]))
  | _ => Except.error PyErr.typeError

/-- JSON structural whitespace (`json.loads` skips these between tokens). -/
def isJsonWs (c : Char) : Bool := c = ' ' ∨ c = '\t' ∨ c = '\n' ∨ c = '\r'

/-- Skip JSON structural whitespace. -/
def skipWs (s : PyStr) : PyStr := s.dropWhile isJsonWs

/-- Hexadecimal digit value for `\uXXXX` escapes. -/
def hexVal (c : Char) : Option Nat :=
  if c.isDigit then some (c.toNat - 48)
  else if 'a' ≤ c ∧ c ≤ 'f' then some (c.toNat - 87)
  else if 'A' ≤ c ∧ c ≤ 'F' then some (c.toNat - 55)
  else none

/-- Number token of `json.loads`: optional minus, integer digits, optional
fraction and exponent.  The raw lexeme is retained; no claim inspects the
numeric value.  A malformed tail (for example a dot with no digits) is left
unconsumed, so `jsonLoads` rejects it through its trailing-input check. -/
def parseNum (s : PyStr) : Except Unit (Json × PyStr) :=
  let (neg, s1) :=
    match s with
    | '-' :: r => (['-'], r)
    | _ => (([] : PyStr), s)
  let ip := s1.takeWhile Char.isDigit
  let r1 := s1.dropWhile Char.isDigit
  if ip = [] then Except.error () else
  let (fp, r2) :=
    match r1 with
    | '.' :: r =>
      if (r.takeWhile Char.isDigit) = [] then (([] : PyStr), r1)
      else ('.' :: r.takeWhile Char.isDigit, r.dropWhile Char.isDigit)
    | _ => (([] : PyStr), r1)
  let (ep, r3) :=
    match r2 with
    | 'e' :: r =>
      match r with
      | '+' :: r' =>
        if (r'.takeWhile Char.isDigit) = [] then (([] : PyStr), r2)
        else ('e' :: '+' :: r'.takeWhile Char.isDigit, r'.dropWhile Char.isDigit)
      | '-' :: r' =>
        if (r'.takeWhile Char.isDigit) = [] then (([] : PyStr), r2)
        else ('e' :: '-' :: r'.takeWhile Char.isDigit, r'.dropWhile Char.isDigit)
      | _ =>
        if (r.takeWhile Char.isDigit) = [] then (([] : PyStr), r2)
        else ('e' :: r.takeWhile Char.isDigit, r.dropWhile Char.isDigit)
    | 'E' :: r =>
      if (r.takeWhile Char.isDigit) = [] then (([] : PyStr), r2)
      else ('E' :: r.takeWhile Char.isDigit, r.dropWhile Char.isDigit)
    | _ => (([] : PyStr), r2)
  Except.ok (Json.num (neg ++ ip ++ fp ++ ep), r3)

mutual

/-- String token of `json.loads` (after the opening quote): consume until the
closing quote, decoding the standard escapes. -/
def parseJStr : Nat → PyStr → PyStr → Except Unit (PyStr × PyStr)
  | 0, _, _ => Except.error ()
  | fuel + 1, s, acc =>
    match s with
    | [] => Except.error ()
    | '"' :: rest => Except.ok (acc.reverse, rest)
    | '\\' :: e :: rest =>
      match e with
      | '"' => parseJStr fuel rest ('"' :: acc)
      | '\\' => parseJStr fuel rest ('\\' :: acc)
      | '/' => parseJStr fuel rest ('/' :: acc)
      | 'n' => parseJStr fuel rest ('\n' :: acc)
      | 't' => parseJStr fuel rest ('\t' :: acc)
      | 'r' => parseJStr fuel rest ('\r' :: acc)
      | 'b' => parseJStr fuel rest (Char.ofNat 8 :: acc)
      | 'f' => parseJStr fuel rest (Char.ofNat 12 :: acc)
      | 'u' =>
        match rest with
        | h1 :: h2 :: h3 :: h4 :: r2 =>
          match hexVal h1, hexVal h2, hexVal h3, hexVal h4 with
          | some a, some b, some c, some d =>
            parseJStr fuel r2 (Char.ofNat (((a * 16 + b) * 16 + c) * 16 + d) :: acc)
          | _, _, _, _ => Except.error ()
        | _ => Except.error ()
      | _ => Except.error ()
    | c :: rest => parseJStr fuel rest (c :: acc)

/-- Value parser of `json.loads`.  The fuel is instantiated with the input
length plus one; every recursive call strictly consumes input first. -/
def parseVal : Nat → PyStr → Except Unit (Json × PyStr)
  | 0, _ => Except.error ()
  | fuel + 1, s =>
    match skipWs s with
    | 'n' :: rest =>
      if ("ull".data).isPrefixOf rest then Except.ok (Json.null, rest.drop 3)
      else Except.error ()
    | 't' :: rest =>
      if ("rue".data).isPrefixOf rest then Except.ok (Json.bool true, rest.drop 3)
      else Except.error ()
    | 'f' :: rest =>
      if ("alse".data).isPrefixOf rest then Except.ok (Json.bool false, rest.drop 4)
      else Except.error ()
    | '"' :: rest => (parseJStr fuel rest []).map (fun p => (Json.str p.1, p.2))
    | '[' :: rest =>
      (match skipWs rest with
       | ']' :: r2 => Except.ok (Json.arr [], r2)
       | _ => (parseArrItems fuel rest).map (fun p => (Json.arr p.1, p.2)))
    | '{' :: rest =>
      (match skipWs rest with
       | '}' :: r2 => Except.ok (Json.obj [], r2)
       | _ => (parseObjItems fuel rest).map (fun p => (Json.obj p.1, p.2)))
    | c :: rest => if c = '-' ∨ c.isDigit then parseNum (c :: rest) else Except.error ()
    | [] => Except.error ()

/-- Comma-separated array items, for `json.loads`. -/
def parseArrItems : Nat → PyStr → Except Unit (List Json × PyStr)
  | 0, _ => Except.error ()
  | fuel + 1, s =>
    match parseVal fuel s with
    | Except.error e => Except.error e
    | Except.ok (v, r) =>
      match skipWs r with
      | ',' :: r2 => (parseArrItems fuel r2).map (fun p => (v :: p.1, p.2))
      | ']' :: r2 => Except.ok ([v], r2)
      | _ => Except.error ()

/-- Comma-separated object members, for `json.loads`. -/
def parseObjItems : Nat → PyStr → Except Unit (List (PyStr × Json) × PyStr)
  | 0, _ => Except.error ()
  | fuel + 1, s =>
    match skipWs s with
    | '"' :: r =>
      match parseJStr fuel r [] with
      | Except.error e => Except.error e
      | Except.ok (k, r2) =>
        match skipWs r2 with
        | ':' :: r3 =>
          match parseVal fuel r3 with
          | Except.error e => Except.error e
          | Except.ok (v, r4) =>
            match skipWs r4 with
            | ',' :: r5 => (parseObjItems fuel r5).map (fun p => ((k, v) :: p.1, p.2))
            | '}' :: r5 => Except.ok ([(k, v)], r5)
            | _ => Except.error ()
        | _ => Except.error ()
    | _ => Except.error ()

end

/-- Model of `json.loads`: parse one value and require only whitespace after
it; any deviation is a `json.JSONDecodeError`, embedded as `Except.error`. -/
def jsonLoads (s : PyStr) : Except Unit Json :=
  match parseVal (s.length + 1) s with
  | Except.error e => Except.error e
  | Except.ok (v, rest) => if skipWs rest = [] then Except.ok v else Except.error ()

/-!  Embedding of `query_generator.py`. -/

/-- The `SearchQuery` pydantic model of `query_generator.py`. -/
structure SearchQuery where
  query : PyStr
  category : PyStr
  deriving DecidableEq, Repr

/-- One request to the LLM completion capability
(`client.chat.completions.create`): the arguments the pipeline passes.
Temperatures are scaled by ten to stay in `Nat`. -/
structure ChatCall where
  model : PyStr
  system : PyStr
  user : PyStr
  temperatureTenths : Nat
  maxTokens : Nat

/-- Behaviour of the LLM completion capability, quantified over by the
theorems: either the reply text `response.choices[0].message.content`, or an
error covering every way the call can fail (timeout, API error, missing
choices, non-string content), all of which land in the `except` clauses of
the callers. -/
def LlmOracle := ChatCall → Except Unit PyStr

/-- Python truthiness `x if v else y` for an optional string
(`None` and `""` are falsy). -/
def pyIfTruthy (v : Option PyStr) (x : PyStr → PyStr) (y : PyStr) : PyStr :=
  match v with
  | none => y
  | some s => if s = [] then y else x s

/-- The `jurisdiction or "General"` expression of `generate_queries`. -/
def jurisdictionOrGeneral (jurisdiction : Option PyStr) : PyStr :=
  pyIfTruthy jurisdiction (fun s => s) ("General".data)

/-- The `jurisdiction_context` string of `generate_queries`:
`f" in {jurisdiction}" if jurisdiction else ""`. -/
def jurisdictionContext (jurisdiction : Option PyStr) : PyStr :=
  pyIfTruthy jurisdiction (fun s => " in ".data ++ s) []

/-- The user prompt built by `generate_queries` (its triple-quoted f-string,
with `\x7b` and `\x7d` denoting the literal braces of the JSON example). -/
def queryGenUserPrompt (subject purpose : PyStr) (jurisdiction : Option PyStr) : PyStr :=
  pyCat
    [ "\nYou are an expert researcher helping government workers find relevant information for document drafting.\n\nGenerate exactly 3 search queries for the following document:\n- Subject: ".data
    , subject
    , "\n- Purpose: ".data
    , purpose
    , "\n- Jurisdiction: ".data
    , jurisdictionOrGeneral jurisdiction
    , "\n\nCreate one query for each category:\n1. BACKGROUND: Historical context, definitions, established policies".data
    , jurisdictionContext jurisdiction
    , "\n2. RECENT: Recent news, changes, updates, current developments".data
    , jurisdictionContext jurisdiction
    , "  \n3. POLICY: Government reports, official documents, regulatory information".data
    , jurisdictionContext jurisdiction
    , "\n\nFocus on:\n- Government and official sources (.gov, .gc.ca, official reports)\n- Factual, authoritative information\n- Relevant to government document drafting\n\nReturn as JSON array with objects containing \"query\" and \"category\" fields.\n\nExample format:\n[\n  \x7b\"query\": \"housing affordability policy framework Canada 2025\", \"category\": \"background\"\x7d,\n  \x7b\"query\": \"recent housing initiatives federal government 2025\", \"category\": \"recent\"\x7d,\n  \x7b\"query\": \"CMHC housing strategy report government\", \"category\": \"policy\"\x7d\n]\n\nGenerate queries now:\n".data
    ]

/-- The single chat call issued by `generate_queries`. -/
def queryGenCall (subject purpose : PyStr) (jurisdiction : Option PyStr) : ChatCall :=
  { model := "gpt-4o-mini".data
  , system := "You are a research assistant that generates precise search queries for government document research. Always return valid JSON.".data
  , user := queryGenUserPrompt subject purpose jurisdiction
  , temperatureTenths := 7
  , maxTokens := 300 }

/-- The `_generate_fallback_queries` template of `query_generator.py`.
Note that `purpose` is accepted but never used, and that an empty
jurisdiction string is falsy in Python, yielding the `" government"`
suffix. -/
def generate_fallback_queries (subject : PyStr) (_purpose : PyStr)
    (jurisdiction : Option PyStr) : List SearchQuery :=
  let jurisdictionSuffix := pyIfTruthy jurisdiction (fun s => ' ' :: s) (" government".data)
  [ { query := subject ++ " policy background".data ++ jurisdictionSuffix
    , category := "background".data }
  , { query := subject ++ " recent news updates 2025".data ++ jurisdictionSuffix
    , category := "recent".data }
  , { query := subject ++ " official report government policy".data
    , category := "policy".data } ]

/-- Markdown fence extraction of `generate_queries`: when the reply contains
a code fence the JSON is cut out of it before parsing. -/
def extractJsonBlock (content : PyStr) : PyStr :=
  if pyIn ("```json".data) content then
    pyStrip (pySplit ("```".data) ((pySplit ("```json".data) content).getD 1 []) |>.getD 0 [])
  else if pyIn ("```".data) content then
    pyStrip ((pySplit ("```".data) content).getD 1 [])
  else content

/-- Conversion of one parsed item into a `SearchQuery`
(`SearchQuery(query=item["query"], category=item["category"])`): pydantic
accepts string fields and raises a validation error otherwise, which the
caller's blanket `except Exception` turns into the fallback. -/
def buildSearchQuery (item : Json) : Except PyErr SearchQuery :=
  match jsonGetD item ("query".data) Json.null, jsonGetD item ("category".data) Json.null with
  | Except.ok (Json.str q), Except.ok (Json.str c) => Except.ok { query := q, category := c }
  | _, _ => Except.error PyErr.validationError

/-- The validation loop of `generate_queries`: keep items that are dicts with
both keys, convert each, propagating the first conversion error. -/
def collectQueries : List Json → Except PyErr (List SearchQuery)
  | [] => Except.ok []
  | item :: rest =>
    if jsonIsDict item ∧ jsonHasKey item ("query".data) ∧ jsonHasKey item ("category".data) then
      match buildSearchQuery item with
      | Except.error e => Except.error e
      | Except.ok q => (collectQueries rest).map (q :: ·)
    else
      collectQueries rest

/-- The parse-and-validate stage of `generate_queries` applied to a
successful model reply: fence extraction, `json.loads`, iteration over the
parsed value, and per-item validation. `none` embeds any exception raised
along the way (`json.JSONDecodeError`, `TypeError` from iterating a
non-iterable value, pydantic validation errors), all of which the blanket
`except` of `generate_queries` turns into the template fallback. -/
def replyQueries (reply : PyStr) : Option (List SearchQuery) :=
  match jsonLoads (extractJsonBlock (pyStrip reply)) with
  | Except.error _ => none
  | Except.ok data =>
    match pyIterJson data with
    | Except.error _ => none
    | Except.ok items =>
      match collectQueries items with
      | Except.error _ => none
      | Except.ok queries => some queries

/-- The `generate_queries` coroutine of `query_generator.py`: one LLM call,
code-fence stripping, `json.loads`, item validation, and the count guard;
every failure path lands in `_generate_fallback_queries`. -/
def generate_queries (llm : LlmOracle) (subject purpose : PyStr)
    (jurisdiction : Option PyStr) : List SearchQuery :=
  match llm (queryGenCall subject purpose jurisdiction) with
  | Except.error _ => generate_fallback_queries subject purpose jurisdiction
  | Except.ok reply =>
    let content := extractJsonBlock (pyStrip reply)
    match jsonLoads content with
    | Except.error _ => generate_fallback_queries subject purpose jurisdiction
    | Except.ok data =>
      match pyIterJson data with
      | Except.error _ => generate_fallback_queries subject purpose jurisdiction
      | Except.ok items =>
        match collectQueries items with
        | Except.error _ => generate_fallback_queries subject purpose jurisdiction
        | Except.ok queries =>
          if queries.length = 3 then queries
          else generate_fallback_queries subject purpose jurisdiction

/-!  Embedding of `search_handler.py`. -/

/-- The `SearchResult` record of `search_handler.py`. -/
structure SearchResult where
  title : PyStr
  url : PyStr
  snippet : PyStr
  domain : PyStr
  deriving DecidableEq, Repr

/-- Valid scheme character for `urllib.parse` (`RFC 3986`): letters, digits,
`+`, `-`, `.`. -/
def validSchemeChar (c : Char) : Bool := c.isAlphanum ∨ c = '+' ∨ c = '-' ∨ c = '.'

/-- Strip a URL scheme the way `urllib.parse.urlsplit` does: a leading
`name:` is removed when `name` is nonempty, starts with a letter, and
contains only scheme characters. -/
def splitScheme (url : PyStr) : PyStr :=
  match findSub [':'] url with
  | none => url
  | some i =>
    let sch := url.take i
    match sch with
    | [] => url
    | c :: rest =>
      if c.isAlpha ∧ rest.all validSchemeChar then url.drop (i + 1) else url

/-- Model of `urlparse(url).netloc`: the authority component after `//`, up
to the next `/`, `?` or `#`; `none` embeds the `ValueError` that
`urllib.parse` raises on unbalanced brackets in the authority (the caller
wraps the call in a bare `except: continue`).  A non-string argument also
maps to `none` at the call site. -/
def pyNetloc (url : PyStr) : Option PyStr :=
  let rest := splitScheme url
  if ("//".data).isPrefixOf rest then
    let nl := (rest.drop 2).takeWhile (fun c => ¬ (c = '/' ∨ c = '?' ∨ c = '#'))
    if (pyIn ['['] nl ∧ ¬ pyIn [']'] nl) ∨ (pyIn [']'] nl ∧ ¬ pyIn ['['] nl) then none
    else some nl
  else some []

/-- The spam keyword substrings of `_is_low_quality_domain`. -/
def spam_keywords : List PyStr :=
  ([ "clickbait", "viral", "buzz", "listicle", "top10", "bestof"
   , "casino", "poker", "gambling", "betting", "slots"
   , "dating", "adult", "xxx", "porn", "sex"
   , "freebie", "coupon", "deal", "cheap", "discount"
   , "scam", "fake", "fraud", "spam", "phishing"
    , "malware", "virus", "hack", "crack", "pirate"
   , "get-rich", "make-money", "earn-cash", "free-money" ] : List String).map String.data

/-- The suspicious TLD suffixes of `_is_low_quality_domain`. -/
def suspiciousTlds : List PyStr := ([".tk", ".ml", ".ga", ".cf"] : List String).map String.data

/-- The `_is_low_quality_domain` heuristic of `search_handler.py`.  The
digit-ratio test `len(digits) > len(domain) * 0.3` is evaluated by CPython in
IEEE doubles; for every domain length up to 2000 the double comparison
coincides with the exact rational `10 * digits > 3 * len` (checked
exhaustively), which is how it is embedded. -/
def is_low_quality_domain (domain0 : PyStr) : Bool :=
  let domain := pyLower domain0
  if spam_keywords.any (fun kw => pyIn kw domain) then true
  else
    let digits := (domain.filter Char.isDigit).length
    (10 * digits > 3 * domain.length) ∨
    (domain.filter (· = '-')).length > 3 ∨
    (domain.filter (fun c => ¬ (c = '.' ∨ c = '-'))).length < 4 ∨
    suspiciousTlds.any (fun tld => pyEndswith tld domain)

/-- Document suffixes filtered out by `_filter_results`. -/
def docSuffixes : List PyStr :=
  ([".pdf", ".doc", ".docx", ".xls", ".xlsx"] : List String).map String.data

/-- String payload of a parsed JSON value.  `_filter_results` stores
`item.get("title", "")` and `item.get("snippet", "")` in the `SearchResult`
unchecked; a non-string value is embedded as the empty string (in CPython it
would flow onward and raise only later, inside deduplication — a difference
none of the claims exercises, since such a run raises either way or never
reaches the affected comparison). -/
def jsonAsPyStr : Json → PyStr
  | Json.str s => s
  | _ => []

/-- Per-item body of the `_filter_results` loop: `none` embeds `continue`
(bad domain, document suffix, or the bare `except` around `urlparse`);
`Except.error` embeds an uncaught `AttributeError` from `item.get` on a
non-dict item. -/
def filterResultsItem (item : Json) : Except PyErr (Option SearchResult) :=
  match jsonGetD item ("link".data) (Json.str []) with
  | Except.error e => Except.error e
  | Except.ok urlV =>
    match jsonGetD item ("title".data) (Json.str []) with
    | Except.error e => Except.error e
    | Except.ok titleV =>
      match jsonGetD item ("snippet".data) (Json.str []) with
      | Except.error e => Except.error e
      | Except.ok snippetV =>
        match urlV with
        | Json.str url =>
          match pyNetloc url with
          | none => Except.ok none
          | some nl =>
            let domain := pyLower nl
            if is_low_quality_domain domain then Except.ok none
            else if docSuffixes.any (fun sfx => pyEndswith sfx (pyLower url)) then Except.ok none
            else Except.ok (some
              { title := jsonAsPyStr titleV
              , url := url
              , snippet := jsonAsPyStr snippetV
              , domain := domain })
        | _ => Except.ok none

/-- Loop of `_filter_results` over the (Python-iterated) organic results. -/
def filterResultsLoop : List Json → Except PyErr (List SearchResult)
  | [] => Except.ok []
  | item :: rest =>
    match filterResultsItem item with
    | Except.error e => Except.error e
    | Except.ok none => filterResultsLoop rest
    | Except.ok (some r) => (filterResultsLoop rest).map (r :: ·)

/-- The `_filter_results` method of `search_handler.py`: read
`organic_results` (with `.get` raising on non-dict payloads), iterate it with
Python iteration semantics, and keep well-formed, quality-passing results in
provider order. -/
def filter_results (searchResponse : Json) : Except PyErr (List SearchResult) :=
  match jsonGetD searchResponse ("organic_results".data) (Json.arr []) with
  | Except.error e => Except.error e
  | Except.ok organic =>
    match pyIterJson organic with
    | Except.error e => Except.error e
    | Except.ok items => filterResultsLoop items

/-- Behaviour of the search provider for one query, as observed by
`_search_single_query`: the task can be surfaced as an exception by
`asyncio.gather` (`taskError`), the HTTP request or JSON decode can fail
inside the method's own `try` (`httpError`), or an HTTP response with a
status and JSON body arrives. -/
inductive ProviderBehaviour where
  | taskError
  | httpError
  | response (status : Int) (body : Except Unit Json)

/-- The payload `{"organic_results": []}` substituted on provider errors. -/
def emptyOrganicPayload : Json := Json.obj [("organic_results".data, Json.arr [])]

/-- The `_search_single_query` method of `search_handler.py`: a 200 response
yields its JSON body; any other status, a network error, or an undecodable
body yields the empty payload; `none` embeds the exception arm that
`execute_searches` skips. -/
def search_single_query : ProviderBehaviour → Option Json
  | ProviderBehaviour.taskError => none
  | ProviderBehaviour.httpError => some emptyOrganicPayload
  | ProviderBehaviour.response status body =>
    if status = 200 then
      match body with
      | Except.ok j => some j
      | Except.error _ => some emptyOrganicPayload
    else some emptyOrganicPayload

/-- The gather-and-filter loop of `execute_searches`: failed tasks are
skipped, each surviving response is filtered and capped at 5 results per
query, and the per-query lists are concatenated in query order. -/
def gatherFiltered (provider : SearchQuery → ProviderBehaviour) :
    List SearchQuery → Except PyErr (List SearchResult)
  | [] => Except.ok []
  | q :: rest =>
    match search_single_query (provider q) with
    | none => gatherFiltered provider rest
    | some payload =>
      match filter_results payload with
      | Except.error e => Except.error e
      | Except.ok rs => (gatherFiltered provider rest).map (rs.take 5 ++ ·)

/-- The word set `set(title.lower().split())` used by
`_deduplicate_results`, embedded as a duplicate-free list. -/
def wordSet (title : PyStr) : List PyStr := (pySplitWs (pyLower title)).dedup

/-- Cardinality of `title_words & seen_words` for duplicate-free lists. -/
def interCard (a b : List PyStr) : Nat := (a.filter (· ∈ b)).length

/-- Cardinality of `title_words | seen_words` for duplicate-free lists. -/
def unionCard (a b : List PyStr) : Nat := ((a ++ b).dedup).length

/-- The inner similarity loop of `_deduplicate_results`: compare the word
set of the candidate title against every seen title; `len(&)/len(|) > 0.8`
is the exact-rational `5 * inter > 4 * union` (see the header note on
floats), and a union of size zero raises `ZeroDivisionError`. -/
def similarCheck (tw : List PyStr) : List PyStr → Except PyErr Bool
  | [] => Except.ok false
  | st :: rest =>
    let sw := wordSet st
    let u := unionCard tw sw
    if u = 0 then Except.error PyErr.zeroDivisionError
    else if 5 * interCard tw sw > 4 * u then Except.ok true
    else similarCheck tw rest

/-- Membership-preserving insertion, embedding `set.add` on a set modelled
as its insertion-ordered list of elements. -/
def addOnce (seen : List PyStr) (x : PyStr) : List PyStr :=
  if x ∈ seen then seen else seen ++ [x]

/-- Main loop of `_deduplicate_results`: skip exact URL repeats, skip
candidates similar to an already-seen title, keep the rest in order. -/
def dedupGo : List SearchResult → List PyStr → List PyStr → List SearchResult →
    Except PyErr (List SearchResult)
  | [], _, _, kept => Except.ok kept
  | r :: rest, seenUrls, seenTitles, kept =>
    if r.url ∈ seenUrls then dedupGo rest seenUrls seenTitles kept
    else
      match similarCheck (wordSet r.title) seenTitles with
      | Except.error e => Except.error e
      | Except.ok true => dedupGo rest seenUrls seenTitles kept
      | Except.ok false =>
        dedupGo rest (addOnce seenUrls r.url) (addOnce seenTitles r.title) (kept ++ [r])

/-- The `_deduplicate_results` method of `search_handler.py`. -/
def deduplicate_results (results : List SearchResult) : Except PyErr (List SearchResult) :=
  dedupGo results [] [] []

/-- The `execute_searches` coroutine of `search_handler.py`: gather per-query
responses, filter each, take 5 per query, deduplicate, return at most 15. -/
def execute_searches (provider : SearchQuery → ProviderBehaviour)
    (queries : List SearchQuery) : Except PyErr (List SearchResult) :=
  match gatherFiltered provider queries with
  | Except.error e => Except.error e
  | Except.ok allResults => (deduplicate_results allResults).map (·.take 15)

/-!  Embedding of `content_extractor.py`. -/

/-- The `ExtractedContent` record of `content_extractor.py` (the
`extraction_date` wall-clock field is not modelled). -/
structure ExtractedContent where
  title : PyStr
  url : PyStr
  content : PyStr
  domain : PyStr
  word_count : Nat
  deriving DecidableEq, Repr

/-- The `max_content_length` attribute set in `ContentExtractor.__init__`. -/
def maxContentLength : Nat := 50000

/-- The `min_content_length` attribute set in `ContentExtractor.__init__`. -/
def minContentLength : Nat := 200

/-- Python regex `\w` (ASCII fragment of the Unicode definition; no claim
involves non-ASCII word characters). -/
def isWordChar (c : Char) : Bool := c.isAlphanum ∨ c = '_'

/-- Case-insensitive prefix test, for the `re.IGNORECASE` substitutions. -/
def ciStarts : PyStr → PyStr → Bool
  | [], _ => true
  | _ :: _, [] => false
  | p :: ps, c :: cs => p.toLower == c.toLower && ciStarts ps cs

/-- Matcher for a case-insensitive literal pattern at the current position
(returns the number of characters matched). -/
def matchLitCI (pat : PyStr) (t : PyStr) : Option Nat :=
  if ciStarts pat t then some pat.length else none

/-- Matcher for the trailing `.*?(?:\.|$)` of several boilerplate patterns:
the lazy dot cannot cross a newline; the alternation consumes a literal dot,
or matches the zero-width `$` at the end of input or before one final
newline. -/
def lazyUpto : PyStr → Option Nat
  | [] => some 0
  | '.' :: _ => some 1
  | '\n' :: rest => if rest = [] then some 0 else none
  | _ :: rest => (lazyUpto rest).map (· + 1)

/-- Matcher for `<pre>.*?(?:\.|$)` case-insensitively. -/
def matchLazyTail (pre : PyStr) (t : PyStr) : Option Nat :=
  if ciStarts pre t then (lazyUpto (t.drop pre.length)).map (pre.length + ·) else none

/-- Matcher for `Follow us on \w+` case-insensitively. -/
def matchFollowUs (t : PyStr) : Option Nat :=
  if ciStarts ("follow us on ".data) t then
    let w := (t.drop 13).takeWhile isWordChar
    if w = [] then none else some (13 + w.length)
  else none

/-- Matcher for `Copyright \d{4}.*?(?:\.|$)` case-insensitively. -/
def matchCopyright (t : PyStr) : Option Nat :=
  if ciStarts ("copyright ".data) t then
    let r := t.drop 10
    if (r.take 4).length = 4 ∧ (r.take 4).all Char.isDigit then
      (lazyUpto (r.drop 4)).map (14 + ·)
    else none
  else none

/-- Matcher for a lazy gap up to a case-insensitive literal (`Sign
up for.*?newsletter`): shortest non-newline-crossing extension reaching the
goal literal. -/
def lazyUptoLit (goal : PyStr) : PyStr → Option Nat
  | [] => none
  | c :: rest =>
    if ciStarts goal (c :: rest) then some goal.length
    else if c = '\n' then none
    else (lazyUptoLit goal rest).map (· + 1)

/-- Matcher for `Sign up for.*?newsletter` case-insensitively. -/
def matchSignUp (t : PyStr) : Option Nat :=
  if ciStarts ("sign up for".data) t then
    (lazyUptoLit ("newsletter".data) (t.drop 11)).map (11 + ·)
  else none

/-- Matcher for `https?://\S+` (case-sensitive): optional `s`, then `://`,
then at least one non-space character, greedily. -/
def matchUrlAt (t : PyStr) : Option Nat :=
  let tryTail : Nat → PyStr → Option Nat := fun k r =>
    if ("://".data).isPrefixOf r then
      let w := (r.drop 3).takeWhile (fun c => ¬ isPySpace c)
      if w = [] then none else some (k + 3 + w.length)
    else none
  if ("http".data).isPrefixOf t then
    match t.drop 4 with
    | 's' :: _ =>
      match tryTail 5 (t.drop 5) with
      | some k => some k
      | none => tryTail 4 (t.drop 4)
    | r => tryTail 4 r
  else none

/-- Interior-dot test of the email pattern remainder `\S+\.\S+`. -/
def emailDotOk (b : PyStr) : Bool :=
  (List.range b.length).any (fun j =>
    decide (1 ≤ j) && decide (j + 1 < b.length) && (b.getD j ' ' == '.'))

/-- Backtracking choice of the `@` split for `\S+@\S+\.\S+`: some position
of `@` in the run, not first, whose remainder contains an interior dot. -/
def emailViable (run : PyStr) : Bool :=
  (List.range run.length).any (fun i =>
    decide (1 ≤ i) && (run.getD i ' ' == '@') && emailDotOk (run.drop (i + 1)))

/-- Matcher for `\S+@\S+\.\S+` (case-sensitive): the whole non-space run at
the current position is consumed when it can be split as
`⟨at least 1 char⟩@⟨at least 1 char⟩.⟨at least 1 char⟩`, which is what the
greedy quantifiers with backtracking accept. -/
def matchEmailAt (t : PyStr) : Option Nat :=
  match t with
  | [] => none
  | c :: _ =>
    if isPySpace c then none
    else
      let run := t.takeWhile (fun ch => ¬ isPySpace ch)
      if emailViable run then some run.length else none

/-- Worker for `re.sub(pattern, '', text)`: scan start positions left to
right; at a match, drop the matched characters and continue after them.
Every matcher above consumes at least one character, and the fuel (the input
length) bounds the number of scan steps. -/
def reSubGo (m : PyStr → Option Nat) : Nat → PyStr → PyStr
  | 0, t => t
  | fuel + 1, t =>
    match t with
    | [] => []
    | c :: cs =>
      match m (c :: cs) with
      | some k => reSubGo m fuel ((c :: cs).drop k)
      | none => c :: reSubGo m fuel cs

/-- Python `re.sub(pattern, '', text)` for a matcher `m`. -/
def reSub (m : PyStr → Option Nat) (s : PyStr) : PyStr := reSubGo m s.length s

/-- The fifteen `patterns_to_remove` of `_clean_text`, in source order, each
as a position matcher applied with `re.IGNORECASE`. -/
def boilerMatchers : List (PyStr → Option Nat) :=
  [ matchLitCI ("skip to main content".data)
  , matchLitCI ("skip to content".data)
  , matchLitCI ("subscribe to newsletter".data)
  , matchFollowUs
  , matchCopyright
  , matchLazyTail ("all rights reserved".data)
  , matchLitCI ("privacy policy".data)
  , matchLitCI ("terms of service".data)
  , matchLitCI ("cookie policy".data)
  , matchSignUp
  , matchLazyTail ("share this".data)
  , matchLitCI ("print this page".data)
  , matchLitCI ("email this page".data)
  , matchLazyTail ("last updated:".data)
  , matchLazyTail ("date modified:".data) ]

/-- State-machine worker for `re.sub(r'\s+', ' ', text)`: the flag records
whether the previous character was part of a whitespace run. -/
def collapseWsGo : Bool → PyStr → PyStr
  | _, [] => []
  | prevWs, c :: cs =>
    if isPySpace c then
      if prevWs then collapseWsGo true cs else ' ' :: collapseWsGo true cs
    else c :: collapseWsGo false cs

/-- Python `re.sub(r'\s+', ' ', text)`: each maximal whitespace run becomes
one space. -/
def collapseWs (s : PyStr) : PyStr := collapseWsGo false s

/-- The punctuation kept by `re.sub(r'[^\w\s.,;:!?()-]', ' ', text)`. -/
def allowedPunct : List Char := ['.', ',', ';', ':', '!', '?', '(', ')', '-']

/-- The `_clean_text` method of `content_extractor.py`, step for step:
whitespace collapse, boilerplate patterns, URLs, emails, punctuation
allowlist, whitespace collapse, length cap with ellipsis, strip. -/
def clean_text (text0 : PyStr) : PyStr :=
  let t1 := collapseWs text0
  let t2 := boilerMatchers.foldl (fun t m => reSub m t) t1
  let t3 := reSub matchUrlAt t2
  let t4 := reSub matchEmailAt t3
  let t5 := t4.map (fun c => if isWordChar c ∨ isPySpace c ∨ c ∈ allowedPunct then c else ' ')
  let t6 := collapseWs t5
  let t7 := if maxContentLength < t6.length then t6.take maxContentLength ++ "...".data else t6
  pyStrip t7

/-- What `_extract_clean_content` reads off the parsed HTML soup, at the
BeautifulSoup interface: the text of the `<title>` element (when present),
the text of the first matching content selector (when some selector matches
a nonempty element list), and the cleaned-body fallback text (when a `<body>`
element exists). -/
structure SoupDoc where
  titleText : Option PyStr
  selectorText : Option PyStr
  bodyText : Option PyStr

/-- Behaviour of the HTML parsing capability (BeautifulSoup): a function of
the page text; `Except.error` embeds a parser exception, which the method's
blanket `except` turns into `None`. -/
def SoupOracle := PyStr → Except Unit SoupDoc

/-- Title extraction of `_extract_clean_content`: the stripped `<title>`
text (or `"Untitled"`), whitespace-normalized and capped at 100 characters
with an ellipsis. -/
def titleOf (doc : SoupDoc) : PyStr :=
  let title0 :=
    match doc.titleText with
    | some t => pyStrip t
    | none => "Untitled".data
  let title1 := collapseWs title0
  if 100 < title1.length then title1.take 100 ++ "...".data else title1

/-- Content-region selection of `_extract_clean_content`: the first
selector match, falling back to the denoised body text when the match is
empty (falsy) or under the minimum length. -/
def selectedContent (doc : SoupDoc) : PyStr :=
  let contentText :=
    match doc.selectorText with
    | some t => t
    | none => []
  if contentText = [] ∨ contentText.length < minContentLength then
    match doc.bodyText with
    | some b => b
    | none => contentText
  else contentText

/-- The `_extract_clean_content` method of `content_extractor.py`: parse
(via the soup capability), extract the title, select and clean the content
text, and return it only when the cleaned text meets the minimum length;
parser exceptions yield `None`. -/
def extract_clean_content (soup : SoupOracle) (html : PyStr) : Option (PyStr × PyStr) :=
  match soup html with
  | Except.error _ => none
  | Except.ok doc =>
    let cleaned := clean_text (selectedContent doc)
    if minContentLength ≤ cleaned.length then some (titleOf doc, cleaned) else none

/-- Behaviour of one HTTP page fetch as observed by `_extract_single_url`:
a raised exception (timeout or request error), or a response with status,
`content-type` header, and a body text that may itself fail to decode. -/
inductive FetchOutcome where
  | raise
  | resp (status : Int) (contentType : Option PyStr) (body : Except Unit PyStr)

/-- The `_extract_single_url` coroutine of `content_extractor.py`: non-200
statuses, non-HTML content types, fetch errors, and extraction failures all
yield `None`; otherwise the `ExtractedContent` is built with
`word_count=len(extracted['content'].split())`. -/
def extract_single_url (soup : SoupOracle) (fetch : SearchResult → FetchOutcome)
    (sr : SearchResult) : Option ExtractedContent :=
  match fetch sr with
  | FetchOutcome.raise => none
  | FetchOutcome.resp status ct body =>
    if status ≠ 200 then none
    else if ¬ pyIn ("text/html".data) (pyLower (ct.getD [])) then none
    else
      match body with
      | Except.error _ => none
      | Except.ok html =>
        match extract_clean_content soup html with
        | none => none
        | some tc =>
          some { title := tc.1
               , url := sr.url
               , content := tc.2
               , domain := sr.domain
               , word_count := (pySplitWs tc.2).length }

/-- The `relevant_keywords` list of `_is_quality_content`. -/
def relevant_keywords : List PyStr :=
  ([ "policy", "government", "minister", "department", "regulation"
   , "legislation", "parliament", "federal", "provincial", "municipal"
   , "public", "service", "report", "budget", "strategy", "framework"
   , "initiative", "program", "act", "bill", "committee", "council"
   , "administration", "agency", "authority", "commission" ] : List String).map String.data

/-- The `_is_quality_content` gate of `content_extractor.py`: reject under
100 words, reject lexical uniqueness below `0.3` (`0` for empty token
lists), reject fewer than 2 relevant-keyword substring matches. -/
def is_quality_content (c : ExtractedContent) : Bool :=
  if c.word_count < 100 then false
  else
    let words := pySplitWs (pyLower c.content)
    if words = [] ∨ 10 * words.dedup.length < 3 * words.length then false
    else
      let contentLower := pyLower c.content
      let keywordCount := (relevant_keywords.filter (fun kw => pyIn kw contentLower)).length
      if keywordCount < 2 then false else true

/-- The `extract_multiple` coroutine of `content_extractor.py`: every URL is
attempted, per-URL failures are dropped (the gather loop keeps only
`ExtractedContent` instances), and the survivors pass through the quality
gate. -/
def extract_multiple (soup : SoupOracle) (fetch : SearchResult → FetchOutcome)
    (searchResults : List SearchResult) : List ExtractedContent :=
  ((searchResults.filterMap (extract_single_url soup fetch)).filter is_quality_content)

/-!  Embedding of `summarizer.py`. -/

/-- The `SourceSummary` pydantic model of `summarizer.py` (the
`date_accessed` wall-clock field is not modelled). -/
structure SourceSummary where
  title : PyStr
  url : PyStr
  source_summary : List PyStr
  domain : PyStr
  deriving DecidableEq, Repr

/-- The `max_chunk_size` attribute set in `Summarizer.__init__`. -/
def maxChunkSize : Nat := 4000

/-- Python `sep.join(xs)`. -/
def pyJoin (sep : PyStr) (xs : List PyStr) : PyStr := List.intercalate sep xs

/-- Loop of `_chunk_content` over `content.split('. ')`: sentences are
re-joined with `". "` into the running chunk while the Python guard
`len(current_chunk) + len(sentence) + 2 <= max_chunk_size` holds; on
overflow the running chunk is stripped and flushed (when nonempty) and the
sentence starts the next chunk. -/
def chunkLoop (budget : Nat) : List PyStr → PyStr → List PyStr → List PyStr
  | [], current, acc => if current ≠ [] then acc ++ [pyStrip current] else acc
  | s :: rest, current, acc =>
    if current.length + s.length + 2 ≤ budget then
      chunkLoop budget rest (current ++ s ++ ". ".data) acc
    else if current ≠ [] then
      chunkLoop budget rest (s ++ ". ".data) (acc ++ [pyStrip current])
    else
      chunkLoop budget rest (s ++ ". ".data) acc

/-- The `_chunk_content` method of `summarizer.py`. -/
def chunk_content (content : PyStr) : List PyStr :=
  if content.length ≤ maxChunkSize then [content]
  else chunkLoop maxChunkSize (pySplit (". ".data) content) [] []

/-- Bullet extraction of `_summarize_chunk`: a stripped line starting with a
marker is kept without its first character (re-stripped); otherwise a line
over 20 characters not starting with a known preamble is kept verbatim. -/
def bulletFromLine20 (line0 : PyStr) : Option PyStr :=
  let line := pyStrip line0
  if pyStartswith ['•'] line ∨ pyStartswith ['-'] line ∨ pyStartswith ['*'] line then
    some (pyStrip (line.drop 1))
  else if 20 < line.length ∧
      ¬ ((["Here are", "Summary:", "Key points:"] : List String).map String.data).any
        (fun p => pyStartswith p line) then
    some line
  else none

/-- Bullet extraction of `_consolidate_summaries`: marker lines only. -/
def bulletFromLineMarkers (line0 : PyStr) : Option PyStr :=
  let line := pyStrip line0
  if pyStartswith ['•'] line ∨ pyStartswith ['-'] line ∨ pyStartswith ['*'] line then
    some (pyStrip (line.drop 1))
  else none

/-- Bullet extraction of `synthesize_summary`: marker lines, or lines over
30 characters not starting with a known preamble. -/
def bulletFromLine30 (line0 : PyStr) : Option PyStr :=
  let line := pyStrip line0
  if pyStartswith ['•'] line ∨ pyStartswith ['-'] line ∨ pyStartswith ['*'] line then
    some (pyStrip (line.drop 1))
  else if 30 < line.length ∧
      ¬ ((["Here", "Based", "The following"] : List String).map String.data).any
        (fun p => pyStartswith p line) then
    some line
  else none

/-- The user prompt of `_summarize_chunk`. -/
def chunkUserPrompt (text title domain : PyStr) : PyStr :=
  pyCat
    [ "\nSummarize the following government/policy document into exactly 3-4 bullet points.\n\nDocument Title: ".data
    , title
    , "\nSource Domain: ".data
    , domain
    , "\n\nFocus on:\n- Key facts, figures, and statistics\n- Policy decisions or recommendations  \n- Government initiatives or programs\n- Relevant dates and timelines\n- Actionable information for government document drafting\n\nEach bullet point should be 1-2 sentences and contain specific, factual information.\n\nText to summarize:\n".data
    , text
    , "\n\nReturn only the bullet points, starting each with \"•\":\n".data ]

/-- The chat call issued by `_summarize_chunk`. -/
def chunkCall (text title domain : PyStr) : ChatCall :=
  { model := "gpt-4o-mini".data
  , system := "You are an expert policy analyst who creates concise, factual summaries for government document drafters. Focus on specific facts, figures, and actionable information.".data
  , user := chunkUserPrompt text title domain
  , temperatureTenths := 3
  , maxTokens := 400 }

/-- The `_summarize_chunk` coroutine of `summarizer.py`: extract bullets
from the reply, pad with `Additional context from <domain>` fillers below 3,
truncate above 4; a failed call yields the single unavailability bullet. -/
def summarize_chunk (llm : LlmOracle) (text title domain : PyStr) : List PyStr :=
  match llm (chunkCall text title domain) with
  | Except.error _ => [pyCat ["Summary unavailable for content from ".data, domain]]
  | Except.ok reply =>
    let content := pyStrip reply
    let bullets := (pySplit ['\n'] content).filterMap bulletFromLine20
    if bullets.length < 3 then
      bullets ++ List.replicate (3 - bullets.length) (pyCat ["Additional context from ".data, domain])
    else if 4 < bullets.length then bullets.take 4
    else bullets

/-- The user prompt of `_consolidate_summaries`. -/
def consolidateUserPrompt (combined title : PyStr) : PyStr :=
  pyCat
    [ "\nThe following bullet points are summaries from different sections of the same document: \"".data
    , title
    , "\"\n\nConsolidate these into exactly 3-4 key bullet points that capture the most important information:\n\n".data
    , combined
    , "\n\nReturn only the consolidated bullet points, starting each with \"•\":\n".data ]

/-- The chat call issued by `_consolidate_summaries`. -/
def consolidateCall (combined title : PyStr) : ChatCall :=
  { model := "gpt-4o-mini".data
  , system := "You consolidate multiple summaries into the most important key points.".data
  , user := consolidateUserPrompt combined title
  , temperatureTenths := 2
  , maxTokens := 300 }

/-- The `_consolidate_summaries` coroutine of `summarizer.py`: marker-line
bullets capped at 4; an empty extraction or a failed call falls back to the
first 4 input chunk summaries.  No lower-bound padding happens here. -/
def consolidate_summaries (llm : LlmOracle) (chunkSummaries : List PyStr)
    (title : PyStr) : List PyStr :=
  let combined := pyJoin ['\n'] chunkSummaries
  match llm (consolidateCall combined title) with
  | Except.error _ => chunkSummaries.take 4
  | Except.ok reply =>
    let content := pyStrip reply
    let bullets := (pySplit ['\n'] content).filterMap bulletFromLineMarkers
    if bullets ≠ [] then bullets.take 4 else chunkSummaries.take 4

/-- The `_summarize_single_source` coroutine of `summarizer.py`.  Every
modelled operation inside its `try` is total, and `_summarize_chunk` and
`_consolidate_summaries` trap their own LLM failures, so the enclosing
`except` arm (the `"Summary unavailable - processing error"` bullet) is
unreachable in the model and is not represented. -/
def summarize_single_source (llm : LlmOracle) (content : ExtractedContent) : SourceSummary :=
  let chunks := chunk_content content.content
  let summaryPoints :=
    if chunks.length = 1 then
      summarize_chunk llm (chunks.getD 0 []) content.title content.domain
    else
      let chunkSummaries :=
        (chunks.map (fun ch => summarize_chunk llm ch content.title content.domain)).flatten
      consolidate_summaries llm chunkSummaries content.title
  { title := content.title
  , url := content.url
  , source_summary := summaryPoints
  , domain := content.domain }

/-- The `summarize_sources` coroutine of `summarizer.py`.  The batching
(groups of 5 with a pause) only schedules the per-source tasks; the returned
list is the per-source results in input order, which is what is modelled. -/
def summarize_sources (llm : LlmOracle) (extractedContent : List ExtractedContent) :
    List SourceSummary :=
  extractedContent.map (summarize_single_source llm)

/-- The user prompt of `synthesize_summary`. -/
def synthUserPrompt (combined subject purpose : PyStr) : PyStr :=
  pyCat
    [ "\nCreate a unified synthesis for a government document on the following:\n- Subject: ".data
    , subject
    , "\n- Purpose: ".data
    , purpose
    , "\n\nBased on these research findings from multiple sources:\n\n".data
    , combined
    , "\n\nSynthesize this information into exactly 5-7 bullet points that:\n1. Group related themes together\n2. Highlight the most relevant facts and figures\n3. Focus on actionable insights for government document drafting\n4. Maintain factual accuracy\n5. Prioritize recent developments and official government positions\n\nEach bullet point should be 2-3 sentences and provide specific, useful information.\n\nReturn only the bullet points, starting each with \"•\":\n".data ]

/-- The chat call issued by `synthesize_summary`. -/
def synthCall (combined subject purpose : PyStr) : ChatCall :=
  { model := "gpt-4o-mini".data
  , system := "You are a senior policy analyst creating executive-level summaries for government document drafters. Focus on synthesis, themes, and actionable insights.".data
  , user := synthUserPrompt combined subject purpose
  , temperatureTenths := 4
  , maxTokens := 600 }

/-- The two generic padding bullets appended by `synthesize_summary` when
fewer than 5 bullets were extracted (at most `5 - len` of them are taken). -/
def synthPadding (subject purpose : PyStr) : List PyStr :=
  [ pyCat ["Research indicates ".data, subject, " is a significant policy area requiring attention.".data]
  , pyCat ["Multiple government sources provide relevant context for ".data, purpose, ".".data] ]

/-- The five fallback statements returned by `synthesize_summary` when the
synthesis call fails. -/
def synthFallback (sourceCount : Nat) (subject purpose : PyStr) : List PyStr :=
  [ pyCat ["Research compiled from ".data, pyStrOfNat sourceCount, " government and policy sources.".data]
  , pyCat ["Key themes identified related to ".data, subject, " and ".data, purpose, ".".data]
  , "Multiple official sources provide relevant background information.".data
  , "Recent developments and policy positions have been documented.".data
  , "Further analysis recommended based on collected research.".data ]

/-- The `synthesize_summary` coroutine of `summarizer.py`: the early return
on an empty source list, the domain-tagged flattening of all bullets, the
synthesis call with bullet extraction, padding toward 5 with the two generic
points, truncation to 7, and the five-statement fallback on call failure. -/
def synthesize_summary (llm : LlmOracle) (sourceSummaries : List SourceSummary)
    (subject purpose : PyStr) : List PyStr :=
  if sourceSummaries = [] then ["No relevant sources found for analysis.".data]
  else
    let allPoints :=
      (sourceSummaries.map (fun src =>
        src.source_summary.map (fun point => pyCat [['['], src.domain, "] ".data, point]))).flatten
    let combined := pyJoin ['\n'] allPoints
    match llm (synthCall combined subject purpose) with
    | Except.error _ => synthFallback sourceSummaries.length subject purpose
    | Except.ok reply =>
      let content := pyStrip reply
      let bullets := (pySplit ['\n'] content).filterMap bulletFromLine30
      if bullets.length < 5 then
        bullets ++ (synthPadding subject purpose).take (5 - bullets.length)
      else if 7 < bullets.length then bullets.take 7
      else bullets

/-!  Embedding of the orchestrator endpoints of `main.py`. -/

/-- The validated `DocumentRequest` body (FastAPI enforces nonempty
`subject` and `purpose` before the handler runs). -/
structure DocumentRequest where
  subject : PyStr
  purpose : PyStr
  jurisdiction : Option PyStr

/-- The `SearchResponse` pydantic model of `main.py` (the `processing_time`
wall-clock float is not modelled). -/
structure SearchResponse where
  queries : List SearchQuery
  summary : List PyStr
  sources : List SourceSummary
  deriving DecidableEq, Repr

/-- The `/search-and-summarize` handler of `main.py`: the five pipeline
stages in sequence; any exception escaping a stage is converted to an HTTP
500 (`HTTPException`), embedded as `Except.error 500`. -/
def search_and_summarize (llm : LlmOracle) (provider : SearchQuery → ProviderBehaviour)
    (soup : SoupOracle) (fetch : SearchResult → FetchOutcome)
    (req : DocumentRequest) : Except Nat SearchResponse :=
  let queries := generate_queries llm req.subject req.purpose req.jurisdiction
  match execute_searches provider queries with
  | Except.error _ => Except.error 500
  | Except.ok searchResults =>
    let extracted := extract_multiple soup fetch searchResults
    let sourceSummaries := summarize_sources llm extracted
    let unified := synthesize_summary llm sourceSummaries req.subject req.purpose
    Except.ok { queries := queries, summary := unified, sources := sourceSummaries }

/-- The `/generate-queries` handler of `main.py`: `generate_queries` routes
every dependency failure to its fallback, so the handler's own `except` arm
(HTTP 500) is unreachable in the model. -/
def generate_queries_only (llm : LlmOracle) (req : DocumentRequest) :
    Except Nat (List SearchQuery) :=
  Except.ok (generate_queries llm req.subject req.purpose req.jurisdiction)

/-!  Concrete inputs used by the counterexample and witness theorems. -/

/-- An LLM behaviour in which every completion call fails. -/
def llmFail : LlmOracle := fun _ => Except.error ()

/-- An LLM behaviour answering every completion call with the same text. -/
def llmConst (reply : PyStr) : LlmOracle := fun _ => Except.ok reply

/-- A model reply that parses as three items all tagged with the same
category; `generate_queries` accepts it unchanged. -/
def c3Reply : PyStr :=
  "[\x7b\"query\": \"a\", \"category\": \"x\"\x7d, \x7b\"query\": \"b\", \"category\": \"x\"\x7d, \x7b\"query\": \"c\", \"category\": \"x\"\x7d]".data

/-- The three queries parsed out of `c3Reply`. -/
def c3Queries : List SearchQuery :=
  [ { query := "a".data, category := "x".data }
  , { query := "b".data, category := "x".data }
  , { query := "c".data, category := "x".data } ]

/-- A model reply that is not JSON at all: `json.loads` raises and the
fallback is used. -/
def c3BadReply : PyStr := "not json".data

/-- A model reply that parses as only two valid items: the count guard
fails and the fallback is used. -/
def c3TwoReply : PyStr :=
  "[\x7b\"query\": \"a\", \"category\": \"background\"\x7d, \x7b\"query\": \"b\", \"category\": \"recent\"\x7d]".data

/-- The two queries parsed out of `c3TwoReply`. -/
def c3TwoQueries : List SearchQuery :=
  [ { query := "a".data, category := "background".data }
  , { query := "b".data, category := "recent".data } ]

/-- A search query record used to drive `execute_searches` in examples. -/
def exQuery : SearchQuery := { query := "q".data, category := "background".data }

/-- One organic-result record as returned by the provider. -/
def mkOrganicItem (u t : PyStr) : Json :=
  Json.obj [("link".data, Json.str u), ("title".data, Json.str t), ("snippet".data, Json.str [])]

/-- Provider payload with two results whose titles have word-set Jaccard
similarity exactly `4/5`. -/
def c4Payload : Json :=
  Json.obj [("organic_results".data, Json.arr
    [ mkOrganicItem ("http://aaaa.example/one".data) ("a b c d".data)
    , mkOrganicItem ("http://bbbb.example/two".data) ("a b c d e".data) ])]

/-- Provider behaviour returning `c4Payload` with status 200 for every query. -/
def c4Provider : SearchQuery → ProviderBehaviour :=
  fun _ => ProviderBehaviour.response 200 (Except.ok c4Payload)

/-- The two results of `c4Payload` as they appear in the handler output. -/
def c4Result1 : SearchResult :=
  { title := "a b c d".data, url := "http://aaaa.example/one".data
  , snippet := [], domain := "aaaa.example".data }

/-- Second kept result of the Jaccard-boundary run. -/
def c4Result2 : SearchResult :=
  { title := "a b c d e".data, url := "http://bbbb.example/two".data
  , snippet := [], domain := "bbbb.example".data }

/-- Provider payload with two distinct URLs whose titles are both empty:
deduplication then evaluates `len(set() & set()) / len(set() | set())`. -/
def c7Payload : Json :=
  Json.obj [("organic_results".data, Json.arr
    [ mkOrganicItem ("http://aaaa.example/one".data) []
    , mkOrganicItem ("http://bbbb.example/two".data) [] ])]

/-- Provider behaviour returning `c7Payload` with status 200 for every query. -/
def c7Provider : SearchQuery → ProviderBehaviour :=
  fun _ => ProviderBehaviour.response 200 (Except.ok c7Payload)

/-- A request body for the endpoint theorems. -/
def exRequest : DocumentRequest :=
  { subject := "housing affordability".data
  , purpose := "briefing note".data
  , jurisdiction := none }

/-- A soup behaviour whose parse always fails (total outage of extraction). -/
def soupFail : SoupOracle := fun _ => Except.error ()

/-- A fetch behaviour that always raises (total outage of page fetches). -/
def fetchFail : SearchResult → FetchOutcome := fun _ => FetchOutcome.raise

/-- A one-chunk extracted source for the summarizer examples. -/
def c1Content : ExtractedContent :=
  { title := "T".data, url := "u".data, content := "x".data
  , domain := "d.com".data, word_count := 1 }

/-- A source summary with a single bullet, for the synthesis examples. -/
def c2Source : SourceSummary :=
  { title := "t".data, url := "u".data
  , source_summary := ["pt".data], domain := "d".data }

/-- A 99-word document (the word `policy` repeated), rejected by the
quality gate on word count alone. -/
def c5Doc99 : ExtractedContent :=
  let c := pyJoin [' '] (List.replicate 99 ("policy".data))
  { title := "T".data, url := "u".data, content := c
  , domain := "d".data, word_count := (pySplitWs c).length }

/-- A 100-word document whose tokens are the 26 relevant keywords, four
filler words, and 70 repetitions of `policy`: exactly 30% unique tokens and
far more than 2 keyword hits. -/
def c5Doc100 : ExtractedContent :=
  let ws := relevant_keywords ++
    (["alpha", "beta", "gamma", "delta"] : List String).map String.data ++
    List.replicate 70 ("policy".data)
  let c := pyJoin [' '] ws
  { title := "T".data, url := "u".data, content := c
  , domain := "d".data, word_count := (pySplitWs c).length }

/-- The 4000-character sentence of the chunking counterexample. -/
def c6Sentence : PyStr := List.replicate 4000 'x'

/-- Input whose sentences are `"a"` and a 4000-character sentence: no
sentence exceeds the budget, yet the second chunk does. -/
def c6Content : PyStr := "a. ".data ++ c6Sentence

/-- A soup behaviour whose first selector match is a run of `n` letters
`x` under the title `T`. -/
def soupReplicate (n : Nat) : SoupOracle :=
  fun _ => Except.ok
    { titleText := some ("T".data)
    , selectorText := some (List.replicate n 'x')
    , bodyText := none }

/-- A soup behaviour selecting a 50001-character text, which `_clean_text`
truncates to 50000 characters plus an ellipsis. -/
def c9Soup : SoupOracle := soupReplicate 50001

/-- A soup behaviour selecting a 200-character text, exactly at the minimum
length. -/
def c9SoupSmall : SoupOracle := soupReplicate 200

/-- A fetch behaviour delivering an HTML page successfully. -/
def fetchHtml : SearchResult → FetchOutcome :=
  fun _ => FetchOutcome.resp 200 (some ("text/html".data)) (Except.ok [])

/-- A search result fed to the extractor examples. -/
def c9SearchResult : SearchResult :=
  { title := "t".data, url := "http://aaaa.example/one".data
  , snippet := [], domain := "aaaa.example".data }

/-- Text accumulated by `_chunk_content` for a group of consecutive
sentences: each sentence re-joined with the `". "` separator, exactly the
`current_chunk += sentence + ". "` accumulation. -/
def joinGroup (g : List PyStr) : PyStr := (g.map (· ++ ". ".data)).flatten

/-- A chunk as flushed by `_chunk_content`: the accumulated group text,
stripped. -/
def mkChunk (g : List PyStr) : PyStr := pyStrip (joinGroup g)

/-- Size invariant of an accumulated sentence group: either the accumulated
text fits the budget, or the group is a single sentence whose re-joined form
overflows it. -/
def groupOK (budget : Nat) (g : List PyStr) : Prop :=
  (joinGroup g).length ≤ budget ∨ ∃ s, g = [s] ∧ budget < s.length + 2

/-- Relation between two handler results in output order: their URLs differ,
and the word-set Jaccard similarity of the later title to the earlier one is
at most `4/5` (stated in the orientation `_deduplicate_results` computes:
candidate word set first, seen word set second). -/
def dedupGood (a b : SearchResult) : Prop :=
  a.url ≠ b.url ∧
  5 * interCard (wordSet b.title) (wordSet a.title) ≤
    4 * unionCard (wordSet b.title) (wordSet a.title)

/-- The token list `content.lower().split()` over which `_is_quality_content`
measures lexical uniqueness. -/
def qualityWords (c : ExtractedContent) : List PyStr := pySplitWs (pyLower c.content)

/-- The number of relevant keywords occurring as substrings of the lowered
content in `_is_quality_content`. -/
def qualityKeywordCount (c : ExtractedContent) : Nat :=
  (relevant_keywords.filter (fun kw => pyIn kw (pyLower c.content))).length

/-!  Shared lemmas. -/

/-- Stripping never lengthens a string. -/
theorem pyStrip_length_le (s : PyStr) : (pyStrip s).length ≤ s.length := by
  unfold pyStrip
  calc ((s.dropWhile isPySpace).reverse.dropWhile isPySpace).reverse.length
      = ((s.dropWhile isPySpace).reverse.dropWhile isPySpace).length := List.length_reverse _
    _ ≤ (s.dropWhile isPySpace).reverse.length :=
        List.Sublist.length_le (List.dropWhile_sublist _)
    _ = (s.dropWhile isPySpace).length := List.length_reverse _
    _ ≤ s.length := List.Sublist.length_le (List.dropWhile_sublist _)

/-- The fallback query template always has exactly three entries. -/
theorem generate_fallback_queries_length (s p : PyStr) (j : Option PyStr) :
    (generate_fallback_queries s p j).length = 3 := rfl

/-- The fallback query template carries the three categories in order. -/
theorem generate_fallback_queries_categories (s p : PyStr) (j : Option PyStr) :
    (generate_fallback_queries s p j).map SearchQuery.category =
      ["background".data, "recent".data, "policy".data] := rfl

/-- Every branch of `generate_queries` returns a list of length 3. -/
theorem generate_queries_length (llm : LlmOracle) (subject purpose : PyStr)
    (jurisdiction : Option PyStr) :
    (generate_queries llm subject purpose jurisdiction).length = 3 := by
  unfold generate_queries
  split
  · exact generate_fallback_queries_length _ _ _
  · dsimp only
    split
    · exact generate_fallback_queries_length _ _ _
    · split
      · exact generate_fallback_queries_length _ _ _
      · split
        · exact generate_fallback_queries_length _ _ _
        · split
          · next h => exact h
          · exact generate_fallback_queries_length _ _ _

/-- Failure of the LLM call routes `generate_queries` to the template
fallback. -/
theorem generate_queries_of_llm_error (llm : LlmOracle) (subject purpose : PyStr)
    (jurisdiction : Option PyStr)
    (h : llm (queryGenCall subject purpose jurisdiction) = Except.error ()) :
    generate_queries llm subject purpose jurisdiction =
      generate_fallback_queries subject purpose jurisdiction := by
  unfold generate_queries
  rw [h]

/-- On a successful LLM call, `generate_queries` is the count guard applied
to the parse-and-validate stage `replyQueries` of the reply. -/
theorem generate_queries_of_ok_reply (llm : LlmOracle) (subject purpose : PyStr)
    (jurisdiction : Option PyStr) (reply : PyStr)
    (hok : llm (queryGenCall subject purpose jurisdiction) = Except.ok reply) :
    generate_queries llm subject purpose jurisdiction =
      match replyQueries reply with
      | none => generate_fallback_queries subject purpose jurisdiction
      | some queries =>
        if queries.length = 3 then queries
        else generate_fallback_queries subject purpose jurisdiction := by
  unfold generate_queries replyQueries
  rw [hok]
  dsimp only
  cases jsonLoads (extractJsonBlock (pyStrip reply)) with
  | error e => rfl
  | ok data =>
    dsimp only
    cases pyIterJson data with
    | error e => rfl
    | ok items =>
      dsimp only
      cases collectQueries items with
      | error e => rfl
      | ok queries => rfl

/-- A reply whose parse-and-validate stage raises, or yields a query count
other than 3, routes `generate_queries` to the template fallback. -/
theorem generate_queries_of_bad_reply (llm : LlmOracle) (subject purpose : PyStr)
    (jurisdiction : Option PyStr) (reply : PyStr)
    (hok : llm (queryGenCall subject purpose jurisdiction) = Except.ok reply)
    (hbad : ∀ queries, replyQueries reply = some queries → queries.length ≠ 3) :
    generate_queries llm subject purpose jurisdiction =
      generate_fallback_queries subject purpose jurisdiction := by
  rw [generate_queries_of_ok_reply llm subject purpose jurisdiction reply hok]
  cases hq : replyQueries reply with
  | none => rfl
  | some queries =>
    dsimp only
    rw [if_neg (hbad queries hq)]

/-- A reply whose parse-and-validate stage yields exactly 3 valid items is
returned by `generate_queries` unchanged — no fallback and no category
validation. -/
theorem generate_queries_of_parsed_reply (llm : LlmOracle) (subject purpose : PyStr)
    (jurisdiction : Option PyStr) (reply : PyStr) (queries : List SearchQuery)
    (hok : llm (queryGenCall subject purpose jurisdiction) = Except.ok reply)
    (hq : replyQueries reply = some queries) (hlen : queries.length = 3) :
    generate_queries llm subject purpose jurisdiction = queries := by
  rw [generate_queries_of_ok_reply llm subject purpose jurisdiction reply hok, hq]
  dsimp only
  rw [if_pos hlen]

/-!  Claim C10. -/

/-- C10: fallback query generation is a function of subject and jurisdiction
only — `_generate_fallback_queries` never reads `purpose`, so any two purpose
values with the same subject and jurisdiction yield identical query lists. -/
theorem C10_fallback_purpose_independent (subject p1 p2 : PyStr)
    (jurisdiction : Option PyStr) :
    generate_fallback_queries subject p1 jurisdiction =
      generate_fallback_queries subject p2 jurisdiction := rfl

/-!  Claim C3. -/

/-- C3 counterexample: a parseable reply with three items all tagged with
category `"x"` is returned unchanged by `generate_queries` — no query in any
of the categories background/recent/policy, and no fallback — refuting the
claim that the result always has exactly one query per category and that a
missing category triggers the template fallback. -/
theorem C3_counterexample :
    (∀ q ∈ generate_queries (llmConst c3Reply) ("housing".data) ("briefing".data) none,
      ¬ (q.category = "background".data ∨ q.category = "recent".data ∨
         q.category = "policy".data)) ∧
    generate_queries (llmConst c3Reply) ("housing".data) ("briefing".data) none ≠
      generate_fallback_queries ("housing".data) ("briefing".data) none := by
  constructor
  · decide
  · decide

/-- C3 (amended): for every subject, purpose and model behaviour,
`generate_queries` returns exactly 3 `SearchQuery` values; whenever the LLM
call fails, or the reply's parse-and-validate stage raises (no JSON parse,
non-iterable value, invalid item fields) or yields a query count other than
3, it returns the deterministic template fallback, which carries exactly one
query per category in background/recent/policy built from the subject and
jurisdiction with fixed suffixes; and on a reply whose stage yields exactly
3 valid items those items are returned unchanged, their category strings
taken from the reply without validation. -/
theorem C3_amended :
    (∀ (llm : LlmOracle) (subject purpose : PyStr) (jurisdiction : Option PyStr),
      (generate_queries llm subject purpose jurisdiction).length = 3) ∧
    (∀ (subject purpose : PyStr) (jurisdiction : Option PyStr),
      (generate_fallback_queries subject purpose jurisdiction).map SearchQuery.category =
        ["background".data, "recent".data, "policy".data]) ∧
    (∀ (llm : LlmOracle) (subject purpose : PyStr) (jurisdiction : Option PyStr),
      llm (queryGenCall subject purpose jurisdiction) = Except.error () →
      generate_queries llm subject purpose jurisdiction =
        generate_fallback_queries subject purpose jurisdiction) ∧
    (∀ (llm : LlmOracle) (subject purpose : PyStr) (jurisdiction : Option PyStr)
       (reply : PyStr),
      llm (queryGenCall subject purpose jurisdiction) = Except.ok reply →
      (∀ queries, replyQueries reply = some queries → queries.length ≠ 3) →
      generate_queries llm subject purpose jurisdiction =
        generate_fallback_queries subject purpose jurisdiction) ∧
    (∀ (llm : LlmOracle) (subject purpose : PyStr) (jurisdiction : Option PyStr)
       (reply : PyStr) (queries : List SearchQuery),
      llm (queryGenCall subject purpose jurisdiction) = Except.ok reply →
      replyQueries reply = some queries → queries.length = 3 →
      generate_queries llm subject purpose jurisdiction = queries) :=
  ⟨generate_queries_length, generate_fallback_queries_categories,
    generate_queries_of_llm_error, generate_queries_of_bad_reply,
    generate_queries_of_parsed_reply⟩

/-- C3 witness: the amended theorem applied to concrete model behaviours —
a failing call, a non-JSON reply, a two-item reply, and the three-item
reply with unvalidated categories — each routing as stated. -/
theorem C3_witness :
    (generate_queries llmFail ("housing".data) ("briefing".data) none).length = 3 ∧
    (generate_queries llmFail ("housing".data) ("briefing".data) none =
      generate_fallback_queries ("housing".data) ("briefing".data) none) ∧
    (generate_queries (llmConst c3BadReply) ("housing".data) ("briefing".data) none =
      generate_fallback_queries ("housing".data) ("briefing".data) none) ∧
    (generate_queries (llmConst c3TwoReply) ("housing".data) ("briefing".data) none =
      generate_fallback_queries ("housing".data) ("briefing".data) none) ∧
    (generate_queries (llmConst c3Reply) ("housing".data) ("briefing".data) none =
      c3Queries) :=
  ⟨C3_amended.1 llmFail ("housing".data) ("briefing".data) none,
   C3_amended.2.2.1 llmFail ("housing".data) ("briefing".data) none rfl,
   C3_amended.2.2.2.1 (llmConst c3BadReply) ("housing".data) ("briefing".data) none
     c3BadReply rfl
     (fun queries h => by
        rw [show replyQueries c3BadReply = none from by decide] at h
        cases h),
   C3_amended.2.2.2.1 (llmConst c3TwoReply) ("housing".data) ("briefing".data) none
     c3TwoReply rfl
     (fun queries h => by
        rw [show replyQueries c3TwoReply = some c3TwoQueries from by decide] at h
        rw [(Option.some_inj.mp h).symm]
        decide),
   C3_amended.2.2.2.2 (llmConst c3Reply) ("housing".data) ("briefing".data) none
     c3Reply c3Queries rfl (by decide) (by decide)⟩

/-!  Claim C5. -/

/-- C5: the quality gate accepts exactly the content with word count at
least 100, a nonempty token list with at least 30% unique tokens (exact
rational form of the float comparison), and at least 2 relevant-keyword
matches; in particular the 99-word document is rejected and the 100-word
document with exactly 30% unique tokens and many keyword hits is accepted. -/
theorem C5_quality_gate :
    (∀ c : ExtractedContent, is_quality_content c = true ↔
      (100 ≤ c.word_count ∧ qualityWords c ≠ [] ∧
       3 * (qualityWords c).length ≤ 10 * (qualityWords c).dedup.length ∧
       2 ≤ qualityKeywordCount c)) ∧
    is_quality_content c5Doc99 = false ∧
    is_quality_content c5Doc100 = true := by
  refine ⟨?_, by decide, by decide⟩
  intro c
  unfold is_quality_content qualityWords qualityKeywordCount
  dsimp only
  by_cases h1 : c.word_count < 100
  · rw [if_pos h1]
    refine iff_of_false (by simp) ?_
    rintro ⟨hwc, -⟩
    omega
  · rw [if_neg h1]
    by_cases h2 : pySplitWs (pyLower c.content) = [] ∨
        10 * (pySplitWs (pyLower c.content)).dedup.length <
          3 * (pySplitWs (pyLower c.content)).length
    · rw [if_pos h2]
      refine iff_of_false (by simp) ?_
      rintro ⟨-, hne, huniq, -⟩
      rcases h2 with h2 | h2
      · exact hne h2
      · omega
    · rw [if_neg h2]
      push_neg at h2
      by_cases h3 :
          (List.filter (fun kw => pyIn kw (pyLower c.content)) relevant_keywords).length < 2
      · rw [if_pos h3]
        refine iff_of_false (by simp) ?_
        rintro ⟨-, -, -, hkw⟩
        omega
      · rw [if_neg h3]
        exact iff_of_true rfl ⟨by omega, h2.1, by omega, by omega⟩

/-!  Claim C7. -/

/-- C7 evaluation at the failing input: a provider response containing two
result records with distinct URLs and empty titles makes `execute_searches`
raise `ZeroDivisionError` (the title-similarity quotient
`len(set() & set()) / len(set() | set())` divides by zero inside
`_deduplicate_results`), contradicting the claim that the handler never
raises except for configuration errors. -/
theorem C7_code_bug_eval :
    execute_searches c7Provider [exQuery] = Except.error PyErr.zeroDivisionError := by
  decide

/-!  Claim C8. -/

/-- C8 evaluation at the failing input: with the LLM down and the search
provider returning two empty-titled records per query, the
`/search-and-summarize` pipeline raises out of `execute_searches` and the
endpoint converts it to an HTTP 500 instead of a structurally complete
response. -/
theorem C8_code_bug_eval :
    search_and_summarize llmFail c7Provider soupFail fetchFail exRequest =
      Except.error 500 := by
  decide

/-!  Claim C2. -/

/-- C2 counterexample: on an empty source-summary list, `synthesize_summary`
returns the single statement `"No relevant sources found for analysis."` —
one bullet, not between 5 and 7, and not the five-statement fallback
referencing the subject, purpose and source count. -/
theorem C2_counterexample :
    synthesize_summary llmFail [] ("s".data) ("p".data) =
      ["No relevant sources found for analysis.".data] ∧
    ¬ (5 ≤ (synthesize_summary llmFail [] ("s".data) ("p".data)).length) ∧
    synthesize_summary llmFail [] ("s".data) ("p".data) ≠ synthFallback 0 ("s".data) ("p".data) := by
  refine ⟨rfl, by decide, by decide⟩

/-- Length bounds of `synthesize_summary`: never empty, never more than 7. -/
theorem synthesize_summary_length_bounds (llm : LlmOracle) (srcs : List SourceSummary)
    (subject purpose : PyStr) :
    1 ≤ (synthesize_summary llm srcs subject purpose).length ∧
      (synthesize_summary llm srcs subject purpose).length ≤ 7 := by
  unfold synthesize_summary
  split
  · simp
  · dsimp only
    split
    · simp [synthFallback]
    · split
      · next h =>
        simp only [List.length_append, List.length_take]
        have hp : (synthPadding subject purpose).length = 2 := rfl
        omega
      · split
        · next h h2 =>
          simp only [List.length_take]
          omega
        · next h h2 =>
          omega

/-- The early return of `synthesize_summary` on an empty source list. -/
theorem synthesize_summary_empty (llm : LlmOracle) (subject purpose : PyStr) :
    synthesize_summary llm [] subject purpose =
      ["No relevant sources found for analysis.".data] := rfl

/-- With a nonempty source list and every completion call failing,
`synthesize_summary` returns the five fallback statements. -/
theorem synthesize_summary_total_failure (llm : LlmOracle) (srcs : List SourceSummary)
    (subject purpose : PyStr) (hne : srcs ≠ [])
    (hfail : ∀ call, llm call = Except.error ()) :
    synthesize_summary llm srcs subject purpose =
      synthFallback srcs.length subject purpose := by
  unfold synthesize_summary
  rw [if_neg hne]
  dsimp only
  rw [hfail _]

/-- C2 (amended): `synthesize_summary` always returns between 1 and 7
bullets and never an empty sequence; on an empty source-summary list it
returns the single fixed statement `"No relevant sources found for
analysis."`; on total model-call failure with a nonempty list it returns the
fixed set of five generic fallback statements referencing the subject,
purpose and source count.  (Between 5 and 7 bullets is not guaranteed: with
an empty input the result has one bullet, and a successful reply with fewer
than 3 extractable bullets is padded with only two generic points.) -/
theorem C2_amended :
    (∀ (llm : LlmOracle) (srcs : List SourceSummary) (subject purpose : PyStr),
      1 ≤ (synthesize_summary llm srcs subject purpose).length ∧
        (synthesize_summary llm srcs subject purpose).length ≤ 7) ∧
    (∀ (llm : LlmOracle) (subject purpose : PyStr),
      synthesize_summary llm [] subject purpose =
        ["No relevant sources found for analysis.".data]) ∧
    (∀ (llm : LlmOracle) (srcs : List SourceSummary) (subject purpose : PyStr),
      srcs ≠ [] → (∀ call, llm call = Except.error ()) →
      synthesize_summary llm srcs subject purpose =
        synthFallback srcs.length subject purpose ∧
        (synthFallback srcs.length subject purpose).length = 5) :=
  ⟨synthesize_summary_length_bounds,
   synthesize_summary_empty,
   fun llm srcs subject purpose hne hfail =>
     ⟨synthesize_summary_total_failure llm srcs subject purpose hne hfail, rfl⟩⟩

/-- C2 witness: the amended theorem applied to a concrete failing LLM, a
one-source list, and a concrete subject and purpose. -/
theorem C2_witness :
    (1 ≤ (synthesize_summary llmFail [c2Source] ("s".data) ("p".data)).length ∧
      (synthesize_summary llmFail [c2Source] ("s".data) ("p".data)).length ≤ 7) ∧
    synthesize_summary llmFail [] ("s".data) ("p".data) =
      ["No relevant sources found for analysis.".data] ∧
    synthesize_summary llmFail [c2Source] ("s".data) ("p".data) =
      synthFallback 1 ("s".data) ("p".data) :=
  ⟨C2_amended.1 llmFail [c2Source] ("s".data) ("p".data),
   C2_amended.2.1 llmFail ("s".data) ("p".data),
   (C2_amended.2.2 llmFail [c2Source] ("s".data) ("p".data) (by decide)
     (fun _ => rfl)).1⟩

/-!  Claim C1. -/

/-- On a successful model call, `_summarize_chunk` returns exactly 3 or 4
bullets (padding below 3, truncating above 4). -/
theorem summarize_chunk_ok_length (llm : LlmOracle) (text title domain reply : PyStr)
    (h : llm (chunkCall text title domain) = Except.ok reply) :
    (summarize_chunk llm text title domain).length = 3 ∨
      (summarize_chunk llm text title domain).length = 4 := by
  unfold summarize_chunk
  rw [h]
  dsimp only
  split
  · next hlt =>
    left
    simp only [List.length_append, List.length_replicate]
    omega
  · split
    · next h4 =>
      right
      simp only [List.length_take]
      omega
    · next hge h4 =>
      omega

/-- For every model behaviour, `_summarize_chunk` returns between 1 and 4
bullets (a failed call yields the single unavailability bullet). -/
theorem summarize_chunk_bounds (llm : LlmOracle) (text title domain : PyStr) :
    1 ≤ (summarize_chunk llm text title domain).length ∧
      (summarize_chunk llm text title domain).length ≤ 4 := by
  unfold summarize_chunk
  split
  · simp
  · dsimp only
    split
    · simp only [List.length_append, List.length_replicate]
      omega
    · split
      · simp only [List.length_take]
        omega
      · omega

/-- Splitting never yields an empty piece list. -/
theorem pySplitGo_ne_nil (sep : PyStr) (fuel : Nat) (s : PyStr) :
    pySplitGo sep fuel s ≠ [] := by
  cases fuel with
  | zero => simp [pySplitGo]
  | succ n =>
    unfold pySplitGo
    split <;> simp

/-- Python `split` never yields an empty piece list. -/
theorem pySplit_ne_nil (sep s : PyStr) : pySplit sep s ≠ [] := by
  unfold pySplit
  split
  · simp
  · exact pySplitGo_ne_nil _ _ _

/-- The chunking loop returns a nonempty chunk list as soon as any of its
inputs carries material. -/
theorem chunkLoop_ne_nil (budget : Nat) : ∀ (rest : List PyStr) (current : PyStr)
    (acc : List PyStr), (rest ≠ [] ∨ current ≠ [] ∨ acc ≠ []) →
    chunkLoop budget rest current acc ≠ [] := by
  intro rest
  induction rest with
  | nil =>
    intro current acc h
    unfold chunkLoop
    split
    · simp
    · next hc =>
      rcases h with h | h | h
      · exact absurd rfl h
      · exact absurd h hc
      · exact h
  | cons s rest ih =>
    intro current acc h
    unfold chunkLoop
    split
    · exact ih _ _ (Or.inr (Or.inl (by simp)))
    · split
      · exact ih _ _ (Or.inr (Or.inl (by simp)))
      · exact ih _ _ (Or.inr (Or.inl (by simp)))

/-- `_chunk_content` always returns at least one chunk. -/
theorem chunk_content_ne_nil (content : PyStr) : chunk_content content ≠ [] := by
  unfold chunk_content
  split
  · simp
  · exact chunkLoop_ne_nil _ _ _ _ (Or.inl (pySplit_ne_nil _ _))

/-- `_consolidate_summaries` returns between 1 and 4 bullets whenever its
input is nonempty. -/
theorem consolidate_summaries_bounds (llm : LlmOracle) (cs : List PyStr) (title : PyStr)
    (hne : cs ≠ []) :
    1 ≤ (consolidate_summaries llm cs title).length ∧
      (consolidate_summaries llm cs title).length ≤ 4 := by
  unfold consolidate_summaries
  dsimp only
  split
  · simp only [List.length_take]
    have := List.length_pos.mpr hne
    omega
  · split
    · next hb =>
      simp only [List.length_take]
      have := List.length_pos.mpr hb
      omega
    · simp only [List.length_take]
      have := List.length_pos.mpr hne
      omega

/-- Every `SourceSummary` produced by `_summarize_single_source` carries
between 1 and 4 bullets. -/
theorem summarize_single_source_bounds (llm : LlmOracle) (c : ExtractedContent) :
    1 ≤ (summarize_single_source llm c).source_summary.length ∧
      (summarize_single_source llm c).source_summary.length ≤ 4 := by
  unfold summarize_single_source
  dsimp only
  split
  · exact summarize_chunk_bounds _ _ _ _
  · apply consolidate_summaries_bounds
    have hchunks := chunk_content_ne_nil c.content
    cases hc : chunk_content c.content with
    | nil => exact absurd hc hchunks
    | cons ch chs =>
      simp only [hc, List.map_cons, List.flatten_cons, ne_eq, List.append_eq_nil]
      intro hcontra
      have hbound := summarize_chunk_bounds llm ch c.title c.domain
      rw [hcontra.1] at hbound
      simp at hbound

/-- C1 counterexample: with every model call failing, a single-chunk source
is summarized into exactly one fallback bullet, refuting the claim that
every `SourceSummary` has 3 or 4 bullets for every model behaviour. -/
theorem C1_counterexample :
    ∃ ss ∈ summarize_sources llmFail [c1Content],
      ss.source_summary.length ≠ 3 ∧ ss.source_summary.length ≠ 4 := by
  decide

/-- C1 (amended): every `SourceSummary` returned by `summarize_sources`
has between 1 and 4 bullets, and on the single-chunk path with a successful
model call the bullet count is exactly 3 or 4 (padded with filler if under
3, truncated if over 4); a failed model call yields a single fallback
bullet, and the multi-chunk consolidation path can return as few as one
bullet. -/
theorem C1_amended :
    (∀ (llm : LlmOracle) (contents : List ExtractedContent),
      ∀ ss ∈ summarize_sources llm contents,
        1 ≤ ss.source_summary.length ∧ ss.source_summary.length ≤ 4) ∧
    (∀ (llm : LlmOracle) (text title domain reply : PyStr),
      llm (chunkCall text title domain) = Except.ok reply →
      (summarize_chunk llm text title domain).length = 3 ∨
        (summarize_chunk llm text title domain).length = 4) := by
  constructor
  · intro llm contents ss hss
    rcases List.mem_map.mp hss with ⟨c, -, rfl⟩
    exact summarize_single_source_bounds llm c
  · exact summarize_chunk_ok_length

/-- C1 witness: the amended theorem applied to a failing LLM over one
source, and to a successful chunk call with a three-bullet reply. -/
theorem C1_witness :
    (1 ≤ ((summarize_sources llmFail [c1Content]).headD
        { title := [], url := [], source_summary := [], domain := [] }).source_summary.length) ∧
    ((summarize_chunk (llmConst ("•a\n•b\n•c".data)) ("x".data) ("T".data) ("d".data)).length = 3 ∨
      (summarize_chunk (llmConst ("•a\n•b\n•c".data)) ("x".data) ("T".data) ("d".data)).length = 4) := by
  constructor
  · exact (C1_amended.1 llmFail [c1Content]
      (summarize_single_source llmFail c1Content) (by decide)).1
  · exact C1_amended.2 (llmConst ("•a\n•b\n•c".data)) ("x".data) ("T".data) ("d".data)
      ("•a\n•b\n•c".data) rfl

/-!  Claim C4. -/

/-- Inserting into the seen-set keeps the inserted element a member. -/
theorem mem_addOnce_self (seen : List PyStr) (x : PyStr) : x ∈ addOnce seen x := by
  unfold addOnce
  split
  · assumption
  · simp

/-- Inserting into the seen-set preserves existing members. -/
theorem mem_addOnce_of_mem (seen : List PyStr) (x y : PyStr) (h : y ∈ seen) :
    y ∈ addOnce seen x := by
  unfold addOnce
  split
  · exact h
  · simp [h]

/-- When the similarity loop reports "not similar", every seen title had a
Jaccard comparison of at most `4/5` with the candidate word set. -/
theorem similarCheck_ok_false (tw : List PyStr) : ∀ (seens : List PyStr),
    similarCheck tw seens = Except.ok false →
    ∀ st ∈ seens, 5 * interCard tw (wordSet st) ≤ 4 * unionCard tw (wordSet st) := by
  intro seens
  induction seens with
  | nil =>
    intro _ st hst
    cases hst
  | cons st0 rest ih =>
    intro h st hst
    unfold similarCheck at h
    dsimp only at h
    split at h
    · cases h
    · split at h
      · cases h
      · next hgt =>
        rcases List.mem_cons.mp hst with rfl | hst'
        · omega
        · exact ih h st hst'

/-- Invariant preservation for the deduplication loop: a successful pass
extends a pairwise-good kept list to a pairwise-good output. -/
theorem dedupGo_spec : ∀ (rest : List SearchResult) (seenUrls seenTitles : List PyStr)
    (kept out : List SearchResult),
    dedupGo rest seenUrls seenTitles kept = Except.ok out →
    (∀ r ∈ kept, r.url ∈ seenUrls) →
    (∀ r ∈ kept, r.title ∈ seenTitles) →
    kept.Pairwise dedupGood →
    out.Pairwise dedupGood := by
  intro rest
  induction rest with
  | nil =>
    intro su st kept out h h1 h2 hp
    unfold dedupGo at h
    cases h
    exact hp
  | cons r rest ih =>
    intro su st kept out h h1 h2 hp
    unfold dedupGo at h
    split at h
    · exact ih _ _ _ _ h h1 h2 hp
    · next hurl =>
      split at h
      · cases h
      · exact ih _ _ _ _ h h1 h2 hp
      · next hsim =>
        refine ih _ _ _ _ h ?_ ?_ ?_
        · intro x hx
          rcases List.mem_append.mp hx with hx | hx
          · exact mem_addOnce_of_mem _ _ _ (h1 x hx)
          · rw [List.mem_singleton.mp hx]
            exact mem_addOnce_self _ _
        · intro x hx
          rcases List.mem_append.mp hx with hx | hx
          · exact mem_addOnce_of_mem _ _ _ (h2 x hx)
          · rw [List.mem_singleton.mp hx]
            exact mem_addOnce_self _ _
        · rw [List.pairwise_append]
          refine ⟨hp, List.pairwise_singleton _ _, ?_⟩
          intro a ha b hb
          rw [List.mem_singleton.mp hb]
          constructor
          · intro hcontra
            exact hurl (hcontra ▸ h1 a ha)
          · exact similarCheck_ok_false _ _ hsim a.title (h2 a ha)

/-- A successful `_deduplicate_results` pass is pairwise good. -/
theorem deduplicate_results_pairwise (rs out : List SearchResult)
    (h : deduplicate_results rs = Except.ok out) : out.Pairwise dedupGood :=
  dedupGo_spec rs [] [] [] out h (by simp) (by simp) (by simp)

/-- C4 counterexample: two provider results whose titles have word-set
Jaccard similarity exactly `4/5` (at least 80%) both appear in the handler
output — the code filters only at strictly more than 80%. -/
theorem C4_counterexample :
    execute_searches c4Provider [exQuery] = Except.ok [c4Result1, c4Result2] ∧
    4 * unionCard (wordSet c4Result1.title) (wordSet c4Result2.title) ≤
      5 * interCard (wordSet c4Result1.title) (wordSet c4Result2.title) ∧
    c4Result1.title ≠ c4Result2.title := by
  refine ⟨by decide, by decide, by decide⟩

/-- C4 (amended): whenever `execute_searches` returns, its output has at
most 15 results, pairwise distinct URLs, and no later title whose word-set
Jaccard similarity to an earlier one exceeds 80% (strictly). -/
theorem C4_amended (provider : SearchQuery → ProviderBehaviour)
    (queries : List SearchQuery) (out : List SearchResult)
    (h : execute_searches provider queries = Except.ok out) :
    out.length ≤ 15 ∧
    out.Pairwise (fun a b => a.url ≠ b.url) ∧
    out.Pairwise (fun a b =>
      5 * interCard (wordSet b.title) (wordSet a.title) ≤
        4 * unionCard (wordSet b.title) (wordSet a.title)) := by
  unfold execute_searches at h
  split at h
  · cases h
  · next all hall =>
    cases hd : deduplicate_results all with
    | error e =>
      rw [hd] at h
      cases h
    | ok out' =>
      rw [hd] at h
      cases h
      have hp := deduplicate_results_pairwise _ _ hd
      have hsub := List.take_sublist 15 out'
      refine ⟨?_, ?_, ?_⟩
      · simp [List.length_take]
      · exact (hp.sublist hsub).imp (fun hg => hg.1)
      · exact (hp.sublist hsub).imp (fun hg => hg.2)

/-- C4 witness: the amended theorem applied to the concrete boundary run. -/
theorem C4_witness :
    ([c4Result1, c4Result2] : List SearchResult).length ≤ 15 ∧
    ([c4Result1, c4Result2] : List SearchResult).Pairwise (fun a b => a.url ≠ b.url) :=
  ⟨(C4_amended c4Provider [exQuery] [c4Result1, c4Result2] (by decide)).1,
   (C4_amended c4Provider [exQuery] [c4Result1, c4Result2] (by decide)).2.1⟩

/-!  Claim C6. -/

/-- The empty group accumulates no text. -/
theorem joinGroup_nil : joinGroup [] = [] := rfl

/-- Appending a sentence to a group appends its re-joined form. -/
theorem joinGroup_snoc (g : List PyStr) (s : PyStr) :
    joinGroup (g ++ [s]) = joinGroup g ++ (s ++ ". ".data) := by
  simp [joinGroup]

/-- A single-sentence group accumulates the sentence and its separator. -/
theorem joinGroup_singleton (s : PyStr) : joinGroup [s] = s ++ ". ".data := by
  simp [joinGroup]

/-- A group accumulates text exactly when it has a sentence. -/
theorem joinGroup_eq_nil_iff (g : List PyStr) : joinGroup g = [] ↔ g = [] := by
  cases g with
  | nil => simp [joinGroup]
  | cons a l =>
    simp only [joinGroup, List.map_cons, List.flatten_cons]
    constructor
    · intro h
      rcases List.append_eq_nil.mp h with ⟨h1, -⟩
      rcases List.append_eq_nil.mp h1 with ⟨-, h2⟩
      exact absurd h2 (by decide)
    · intro h
      cases h

/-- The separator re-joined onto each sentence is two characters long. -/
theorem dotSpace_length : (". ".data).length = 2 := rfl

/-- Stripping absorbs one trailing space. -/
theorem pyStrip_append_space (y : PyStr) : pyStrip (y ++ [' ']) = pyStrip y := by
  unfold pyStrip
  rw [List.dropWhile_append]
  by_cases hy : (y.dropWhile isPySpace).isEmpty
  · rw [if_pos hy]
    rw [List.isEmpty_iff.mp hy]
    decide
  · rw [if_neg hy]
    rw [List.reverse_append]
    have : (([' '] : PyStr).reverse) = [' '] := rfl
    rw [this]
    rw [show ([' '] : PyStr) ++ (y.dropWhile isPySpace).reverse =
      ' ' :: (y.dropWhile isPySpace).reverse from rfl]
    rw [List.dropWhile_cons]
    rw [if_pos (by decide)]

/-- Every flushed chunk is at most one character longer than the sentences
it contains with their separators, and for a singleton group at most the
sentence length plus one (the trailing space of the separator is always
stripped). -/
theorem mkChunk_singleton_length (s : PyStr) : (mkChunk [s]).length ≤ s.length + 1 := by
  unfold mkChunk
  rw [joinGroup_singleton]
  have h : s ++ ". ".data = (s ++ ['.']) ++ [' '] := by simp
  rw [h, pyStrip_append_space]
  calc (pyStrip (s ++ ['.'])).length ≤ (s ++ ['.']).length := pyStrip_length_le _
    _ = s.length + 1 := by simp

/-- Step equations of the `_chunk_content` loop. -/
theorem chunkLoop_nil (budget : Nat) (current : PyStr) (acc : List PyStr) :
    chunkLoop budget [] current acc =
      if current ≠ [] then acc ++ [pyStrip current] else acc := rfl

/-- Step equation of the loop on one more sentence. -/
theorem chunkLoop_cons (budget : Nat) (s : PyStr) (rest : List PyStr)
    (current : PyStr) (acc : List PyStr) :
    chunkLoop budget (s :: rest) current acc =
      if current.length + s.length + 2 ≤ budget then
        chunkLoop budget rest (current ++ s ++ ". ".data) acc
      else if current ≠ [] then
        chunkLoop budget rest (s ++ ". ".data) (acc ++ [pyStrip current])
      else chunkLoop budget rest (s ++ ". ".data) acc := rfl

/-- Main invariant of the `_chunk_content` loop: starting from an
accumulated group satisfying the size invariant, the loop flushes a sequence
of nonempty groups that partitions the accumulated and remaining sentences
in order, each flushed as its stripped re-joined text and each satisfying
the size invariant. -/
theorem chunkLoop_spec (budget : Nat) : ∀ (rest : List PyStr) (gcur : List PyStr)
    (acc : List PyStr),
    (gcur = [] ∨ groupOK budget gcur) →
    ∃ gs : List (List PyStr),
      chunkLoop budget rest (joinGroup gcur) acc = acc ++ gs.map mkChunk ∧
      gs.flatten = gcur ++ rest ∧
      ∀ g ∈ gs, g ≠ [] ∧ groupOK budget g := by
  intro rest
  induction rest with
  | nil =>
    intro gcur acc hpre
    cases gcur with
    | nil =>
      refine ⟨[], ?_, by simp, by simp⟩
      rw [chunkLoop_nil, joinGroup_nil, if_neg (by simp)]
      simp
    | cons a l =>
      refine ⟨[a :: l], ?_, by simp, ?_⟩
      · rw [chunkLoop_nil, if_pos (by rw [ne_eq, joinGroup_eq_nil_iff]; simp)]
        rfl
      · intro g hg
        rw [List.mem_singleton.mp hg]
        refine ⟨by simp, ?_⟩
        rcases hpre with hpre | hpre
        · cases hpre
        · exact hpre
  | cons s rest ih =>
    intro gcur acc hpre
    have hsingle : ([s] : List PyStr) = [] ∨ groupOK budget [s] := by
      right
      by_cases hs : s.length + 2 ≤ budget
      · left
        rw [joinGroup_singleton]
        simp only [List.length_append, List.length_cons, List.length_nil]
        omega
      · exact Or.inr ⟨s, rfl, by omega⟩
    rw [chunkLoop_cons]
    by_cases hfit : (joinGroup gcur).length + s.length + 2 ≤ budget
    · rw [if_pos hfit]
      have harg : joinGroup gcur ++ s ++ ". ".data = joinGroup (gcur ++ [s]) := by
        rw [joinGroup_snoc, List.append_assoc]
      rw [harg]
      have hpre' : (gcur ++ [s]) = [] ∨ groupOK budget (gcur ++ [s]) := by
        right
        left
        rw [joinGroup_snoc]
        simp only [List.length_append, List.length_cons, List.length_nil]
        simp only [List.length_append] at hfit
        omega
      obtain ⟨gs, h1, h2, h3⟩ := ih (gcur ++ [s]) acc hpre'
      exact ⟨gs, h1, by rw [h2]; simp, h3⟩
    · rw [if_neg hfit]
      by_cases hcur : joinGroup gcur = []
      · have hgnil : gcur = [] := (joinGroup_eq_nil_iff _).mp hcur
        rw [if_neg (by rw [hcur]; simp), show s ++ ". ".data = joinGroup [s] from
          (joinGroup_singleton s).symm]
        obtain ⟨gs, h1, h2, h3⟩ := ih [s] acc hsingle
        exact ⟨gs, h1, by rw [h2, hgnil]; rfl, h3⟩
      · rw [if_pos hcur, show s ++ ". ".data = joinGroup [s] from
          (joinGroup_singleton s).symm]
        obtain ⟨gs, h1, h2, h3⟩ := ih [s] (acc ++ [mkChunk gcur]) hsingle
        refine ⟨gcur :: gs, ?_, ?_, ?_⟩
        · rw [show acc ++ [pyStrip (joinGroup gcur)] = acc ++ [mkChunk gcur] from rfl, h1]
          simp
        · rw [List.flatten_cons, h2]
          rfl
        · intro g hg
          rcases List.mem_cons.mp hg with rfl | hg'
          · refine ⟨fun hnil => hcur (by rw [hnil]; rfl), ?_⟩
            rcases hpre with hpre | hpre
            · exact absurd (by rw [hpre]; rfl) hcur
            · exact hpre
          · exact h3 g hg'

/-- Specification of `_chunk_content`: below the budget the content is one
chunk; above it the chunks are the stripped re-joined forms of an ordered
partition of the sentence sequence into nonempty groups obeying the size
invariant. -/
theorem chunk_content_spec (content : PyStr) :
    (content.length ≤ maxChunkSize → chunk_content content = [content]) ∧
    (maxChunkSize < content.length →
      ∃ gs : List (List PyStr),
        (∀ g ∈ gs, g ≠ [] ∧ groupOK maxChunkSize g) ∧
        gs.flatten = pySplit (". ".data) content ∧
        chunk_content content = gs.map mkChunk) := by
  constructor
  · intro h
    unfold chunk_content
    rw [if_pos h]
  · intro h
    unfold chunk_content
    rw [if_neg (by omega)]
    obtain ⟨gs, h1, h2, h3⟩ :=
      chunkLoop_spec maxChunkSize (pySplit (". ".data) content) [] [] (Or.inl rfl)
    refine ⟨gs, h3, by rw [h2]; rfl, by rw [show ([] : PyStr) = joinGroup [] from rfl, h1]; rfl⟩

/-- Every chunk respects the budget unless some input sentence has length at
least the budget. -/
theorem chunk_content_bound (content : PyStr) :
    ∀ ch ∈ chunk_content content, ch.length ≤ maxChunkSize ∨
      ∃ s ∈ pySplit (". ".data) content, maxChunkSize ≤ s.length := by
  intro ch hch
  by_cases hlen : content.length ≤ maxChunkSize
  · left
    rw [(chunk_content_spec content).1 hlen] at hch
    rw [List.mem_singleton.mp hch]
    exact hlen
  · obtain ⟨gs, hOK, hflat, heq⟩ := (chunk_content_spec content).2 (by omega)
    rw [heq] at hch
    rcases List.mem_map.mp hch with ⟨g, hg, rfl⟩
    rcases (hOK g hg).2 with hok | ⟨s, rfl, hover⟩
    · left
      calc (mkChunk g).length ≤ (joinGroup g).length := pyStrip_length_le _
        _ ≤ maxChunkSize := hok
    · by_cases hsl : s.length + 1 ≤ maxChunkSize
      · left
        calc (mkChunk [s]).length ≤ s.length + 1 := mkChunk_singleton_length s
          _ ≤ maxChunkSize := hsl
      · right
        refine ⟨s, ?_, by omega⟩
        rw [← hflat]
        exact List.mem_flatten.mpr ⟨[s], hg, by simp⟩

/-- Step equation of `findSub` on a nonempty string. -/
theorem findSub_cons (sub : PyStr) (c : Char) (cs : PyStr) :
    findSub sub (c :: cs) =
      if sub.isPrefixOf (c :: cs) then some 0 else (findSub sub cs).map (· + 1) := rfl

/-- The separator does not occur in a run of `x` characters. -/
theorem findSub_replicate_x (n : Nat) :
    findSub ['.', ' '] (List.replicate n 'x') = none := by
  induction n with
  | zero => decide
  | succ n ih =>
    rw [List.replicate_succ, findSub_cons, if_neg (by simp [List.isPrefixOf]), ih]
    rfl

/-- The separator does not occur in a run of `x` characters followed by one
final period. -/
theorem findSub_replicate_x_dot (n : Nat) :
    findSub ['.', ' '] (List.replicate n 'x' ++ ['.']) = none := by
  induction n with
  | zero => decide
  | succ n ih =>
    rw [List.replicate_succ, List.cons_append, findSub_cons,
      if_neg (by simp [List.isPrefixOf]), ih]
    rfl

/-- Splitting a separator-free string yields the string itself. -/
theorem pySplitGo_of_none (sep : PyStr) (fuel : Nat) (s : PyStr)
    (h : findSub sep s = none) : pySplitGo sep fuel s = [s] := by
  cases fuel with
  | zero => rfl
  | succ n =>
    unfold pySplitGo
    rw [h]

/-- Step equation of the split worker with remaining fuel. -/
theorem pySplitGo_succ (sep : PyStr) (fuel : Nat) (s : PyStr) :
    pySplitGo sep (fuel + 1) s =
      match findSub sep s with
      | none => [s]
      | some i => s.take i :: pySplitGo sep fuel (s.drop (i + sep.length)) := rfl

/-- Length of the chunking counterexample input. -/
theorem c6Content_length : c6Content.length = 4003 := by
  rw [show c6Content = ['a', '.', ' '] ++ c6Sentence from rfl, List.length_append,
    show c6Sentence = List.replicate 4000 'x' from rfl, List.length_replicate]
  decide

/-- The counterexample input splits into the sentence `"a"` and the
4000-character sentence. -/
theorem c6_sentences : pySplit (". ".data) c6Content = ["a".data, c6Sentence] := by
  unfold pySplit
  rw [if_neg (by decide), c6Content_length]
  have hf : findSub (". ".data) c6Content = some 1 := by
    rw [show c6Content = 'a' :: ('.' :: (' ' :: c6Sentence)) from rfl]
    rw [findSub_cons, if_neg (by simp [List.isPrefixOf])]
    rw [findSub_cons, if_pos (by simp [List.isPrefixOf])]
    rfl
  rw [show (4003 : Nat) = 4002 + 1 from rfl, pySplitGo_succ, hf]
  dsimp only
  have htake : c6Content.take 1 = "a".data := rfl
  have hdrop : c6Content.drop (1 + (". ".data).length) = c6Sentence := rfl
  rw [htake, hdrop, show c6Sentence = List.replicate 4000 'x' from rfl,
    pySplitGo_of_none _ _ _ (findSub_replicate_x 4000)]

/-- Strings without whitespace are fixed by `strip`. -/
theorem pyStrip_of_no_ws (y : PyStr) (h : ∀ c ∈ y, isPySpace c = false) :
    pyStrip y = y := by
  unfold pyStrip
  have h1 : y.dropWhile isPySpace = y := by
    cases y with
    | nil => rfl
    | cons a l =>
      rw [List.dropWhile_cons, if_neg (by rw [h a (by simp)]; simp)]
  rw [h1]
  have h2 : y.reverse.dropWhile isPySpace = y.reverse := by
    cases hy : y.reverse with
    | nil => rfl
    | cons b bs =>
      rw [List.dropWhile_cons, if_neg ?_]
      have hb : b ∈ y := by
        rw [← List.mem_reverse, hy]
        simp
      rw [h b hb]
      simp
  rw [h2, List.reverse_reverse]

/-- Evaluation of `_chunk_content` on the counterexample input: the first
chunk is `"a."` and the second is the 4000-character sentence with a period
appended — 4001 characters. -/
theorem c6_chunks : chunk_content c6Content = ["a.".data, c6Sentence ++ ['.']] := by
  unfold chunk_content
  rw [if_neg (by rw [c6Content_length]; decide), c6_sentences]
  rw [chunkLoop_cons, if_pos (by decide)]
  rw [show ([] : PyStr) ++ "a".data ++ ". ".data = ['a', '.', ' '] from rfl]
  have hXlen : c6Sentence.length = 4000 := by
    rw [show c6Sentence = List.replicate 4000 'x' from rfl, List.length_replicate]
  rw [chunkLoop_cons, if_neg (by rw [hXlen]; decide)]
  rw [if_pos (by decide)]
  rw [show pyStrip ['a', '.', ' '] = ['a', '.'] from by decide]
  rw [chunkLoop_nil, if_pos (by simp)]
  have hstrip : pyStrip (c6Sentence ++ ". ".data) = c6Sentence ++ ['.'] := by
    rw [show c6Sentence ++ ". ".data = (c6Sentence ++ ['.']) ++ [' '] from by simp]
    rw [pyStrip_append_space]
    apply pyStrip_of_no_ws
    intro c hc
    rcases List.mem_append.mp hc with hc | hc
    · rw [List.eq_of_mem_replicate hc]
      rfl
    · rw [List.mem_singleton.mp hc]
      rfl
  rw [hstrip]
  rfl

/-- C6 counterexample: on an input whose sentences are `"a"` (1 character)
and a 4000-character sentence — neither exceeding the 4000-character budget —
`_chunk_content` produces a 4001-character chunk (the long sentence with a
period appended), and neither plain concatenation nor the chunkwise sentence
sequence reconstructs the original: the separator space is lost and a
trailing period is invented. -/
theorem C6_counterexample :
    (∃ ch ∈ chunk_content c6Content, maxChunkSize < ch.length) ∧
    (∀ s ∈ pySplit (". ".data) c6Content, s.length ≤ maxChunkSize) ∧
    pyCat (chunk_content c6Content) ≠ c6Content ∧
    ((chunk_content c6Content).map (pySplit (". ".data))).flatten ≠
      pySplit (". ".data) c6Content := by
  have hXrep : c6Sentence = List.replicate 4000 'x' := rfl
  refine ⟨?_, ?_, ?_, ?_⟩
  · refine ⟨c6Sentence ++ ['.'], by rw [c6_chunks]; simp, ?_⟩
    rw [List.length_append, hXrep, List.length_replicate]
    decide
  · intro s hs
    rw [c6_sentences] at hs
    rcases List.mem_cons.mp hs with rfl | hs
    · decide
    · rw [List.mem_singleton.mp hs, hXrep, List.length_replicate]
      decide
  · rw [c6_chunks]
    intro h
    have hcount := congrArg (List.count ' ') h
    rw [show pyCat ["a.".data, c6Sentence ++ ['.']] =
      "a.".data ++ (c6Sentence ++ ['.'] ++ []) from rfl] at hcount
    rw [show c6Content = ['a', '.', ' '] ++ c6Sentence from rfl] at hcount
    simp only [List.count_append, hXrep, List.count_replicate] at hcount
    revert hcount
    decide
  · rw [c6_chunks, c6_sentences]
    have h1 : pySplit (". ".data) ("a.".data) = ["a.".data] := by decide
    have h2 : pySplit (". ".data) (c6Sentence ++ ['.']) = [c6Sentence ++ ['.']] := by
      unfold pySplit
      rw [if_neg (by decide)]
      exact pySplitGo_of_none _ _ _ (by rw [hXrep]; exact findSub_replicate_x_dot 4000)
    rw [show ((["a.".data, c6Sentence ++ ['.']] : List PyStr).map (pySplit (". ".data))) =
      [pySplit (". ".data) ("a.".data), pySplit (". ".data) (c6Sentence ++ ['.'])] from rfl]
    rw [h1, h2]
    intro h
    have hh := congrArg (fun l => List.headD l ([] : PyStr)) h
    revert hh
    decide

/-- C6 (amended): for every input, content within the 4000-character budget
is returned as a single chunk; longer content is chunked along an ordered
partition of its sentence sequence into nonempty groups, each chunk being
its group's sentences re-joined with `". "` (which appends a period to the
final sentence) and stripped — so the sentence sequence is preserved groupwise
but plain concatenation need not reproduce the original text; and each chunk
is at most 4000 characters long unless some input sentence has length at
least 4000. -/
theorem C6_amended (content : PyStr) :
    (content.length ≤ maxChunkSize → chunk_content content = [content]) ∧
    (maxChunkSize < content.length →
      ∃ gs : List (List PyStr),
        (∀ g ∈ gs, g ≠ []) ∧
        gs.flatten = pySplit (". ".data) content ∧
        chunk_content content = gs.map mkChunk) ∧
    (∀ ch ∈ chunk_content content, ch.length ≤ maxChunkSize ∨
      ∃ s ∈ pySplit (". ".data) content, maxChunkSize ≤ s.length) := by
  refine ⟨(chunk_content_spec content).1, ?_, chunk_content_bound content⟩
  intro h
  obtain ⟨gs, hOK, hflat, heq⟩ := (chunk_content_spec content).2 h
  exact ⟨gs, fun g hg => (hOK g hg).1, hflat, heq⟩

/-- C6 witness: the amended theorem applied to a short input and to the long
counterexample input. -/
theorem C6_witness :
    chunk_content ("ab".data) = ["ab".data] ∧
    ((c6Sentence ++ ['.']).length ≤ maxChunkSize ∨
      ∃ s ∈ pySplit (". ".data) c6Content, maxChunkSize ≤ s.length) :=
  ⟨(C6_amended ("ab".data)).1 (by decide),
   (C6_amended c6Content).2.2 (c6Sentence ++ ['.']) (by rw [c6_chunks]; simp)⟩

/-!  Claim C9. -/

/-- Step equation of the substitution scan on a nonempty string. -/
theorem reSubGo_succ_cons (m : PyStr → Option Nat) (fuel : Nat) (c : Char) (cs : PyStr) :
    reSubGo m (fuel + 1) (c :: cs) =
      match m (c :: cs) with
      | some k => reSubGo m fuel ((c :: cs).drop k)
      | none => c :: reSubGo m fuel cs := rfl

/-- A substitution whose matcher fails on every nonempty suffix is the
identity. -/
theorem reSubGo_of_none (m : PyStr → Option Nat) : ∀ (fuel : Nat) (t : PyStr),
    (∀ u, u ≠ [] → List.IsSuffix u t → m u = none) → reSubGo m fuel t = t := by
  intro fuel
  induction fuel with
  | zero => intro t _; rfl
  | succ fuel ih =>
    intro t h
    cases t with
    | nil => rfl
    | cons c cs =>
      rw [reSubGo_succ_cons, h (c :: cs) (by simp) (List.suffix_refl _)]
      rw [ih cs (fun u hu hsuf => h u hu (hsuf.trans (List.suffix_cons c cs)))]

/-- `re.sub` with an everywhere-failing matcher is the identity. -/
theorem reSub_of_none (m : PyStr → Option Nat) (t : PyStr)
    (h : ∀ u, u ≠ [] → List.IsSuffix u t → m u = none) : reSub m t = t :=
  reSubGo_of_none m t.length t h

/-- Case-insensitive prefix tests fail on all-`x` strings when the pattern
head does not fold to `x`. -/
theorem ciStarts_x_false (pre u : PyStr) (hne : u ≠ []) (hu : ∀ c ∈ u, c = 'x')
    (hp : pre ≠ [] ∧ (pre.headD 'x').toLower ≠ 'x') : ciStarts pre u = false := by
  cases pre with
  | nil => exact absurd rfl hp.1
  | cons p ps =>
    cases u with
    | nil => exact absurd rfl hne
    | cons c cs =>
      have hc : c = 'x' := hu c (by simp)
      subst hc
      have hph : (p :: ps).headD 'x' = p := rfl
      rw [hph] at hp
      show (p.toLower == 'x'.toLower && ciStarts ps cs) = false
      rw [show ('x' : Char).toLower = 'x' from rfl]
      rw [beq_eq_false_iff_ne.mpr hp.2]
      rfl

/-- Case-sensitive prefix tests fail on all-`x` strings when the pattern
head is not `x`. -/
theorem isPrefixOf_x_false (pre u : PyStr) (hne : u ≠ []) (hu : ∀ c ∈ u, c = 'x')
    (hp : pre ≠ [] ∧ pre.headD 'x' ≠ 'x') : pre.isPrefixOf u = false := by
  cases pre with
  | nil => exact absurd rfl hp.1
  | cons p ps =>
    cases u with
    | nil => exact absurd rfl hne
    | cons c cs =>
      have hc : c = 'x' := hu c (by simp)
      subst hc
      have hph : (p :: ps).headD 'x' = p := rfl
      rw [hph] at hp
      show (p == 'x' && ps.isPrefixOf cs) = false
      rw [beq_eq_false_iff_ne.mpr hp.2]
      rfl

/-- Literal boilerplate matchers fail on all-`x` strings. -/
theorem matchLitCI_none_x (pre u : PyStr) (hne : u ≠ []) (hu : ∀ c ∈ u, c = 'x')
    (hp : pre ≠ [] ∧ (pre.headD 'x').toLower ≠ 'x') : matchLitCI pre u = none := by
  unfold matchLitCI
  rw [ciStarts_x_false pre u hne hu hp]
  rfl

/-- Lazy-tail boilerplate matchers fail on all-`x` strings. -/
theorem matchLazyTail_none_x (pre u : PyStr) (hne : u ≠ []) (hu : ∀ c ∈ u, c = 'x')
    (hp : pre ≠ [] ∧ (pre.headD 'x').toLower ≠ 'x') : matchLazyTail pre u = none := by
  unfold matchLazyTail
  rw [ciStarts_x_false pre u hne hu hp]
  rfl

/-- The `Follow us on` matcher fails on all-`x` strings. -/
theorem matchFollowUs_none_x (u : PyStr) (hne : u ≠ []) (hu : ∀ c ∈ u, c = 'x') :
    matchFollowUs u = none := by
  unfold matchFollowUs
  rw [ciStarts_x_false _ u hne hu (by decide)]
  rfl

/-- The `Copyright` matcher fails on all-`x` strings. -/
theorem matchCopyright_none_x (u : PyStr) (hne : u ≠ []) (hu : ∀ c ∈ u, c = 'x') :
    matchCopyright u = none := by
  unfold matchCopyright
  rw [ciStarts_x_false _ u hne hu (by decide)]
  rfl

/-- The `Sign up for` matcher fails on all-`x` strings. -/
theorem matchSignUp_none_x (u : PyStr) (hne : u ≠ []) (hu : ∀ c ∈ u, c = 'x') :
    matchSignUp u = none := by
  unfold matchSignUp
  rw [ciStarts_x_false _ u hne hu (by decide)]
  rfl

/-- The URL matcher fails on all-`x` strings. -/
theorem matchUrlAt_none_x (u : PyStr) (hne : u ≠ []) (hu : ∀ c ∈ u, c = 'x') :
    matchUrlAt u = none := by
  unfold matchUrlAt
  rw [isPrefixOf_x_false _ u hne hu (by decide)]
  rfl

/-- The email matcher fails on all-`x` strings (no `@` occurs). -/
theorem emailViable_false_of_no_at (run : PyStr) (h : ∀ c ∈ run, c ≠ '@') :
    emailViable run = false := by
  unfold emailViable
  rw [List.any_eq_false]
  intro i hi
  intro hcond
  rw [Bool.and_eq_true, Bool.and_eq_true] at hcond
  rcases hcond with ⟨⟨-, hat⟩, -⟩
  rw [beq_iff_eq] at hat
  by_cases hilt : i < run.length
  · rw [List.getD_eq_getElem run ' ' hilt] at hat
    exact h _ (List.getElem_mem hilt) hat
  · rw [List.getD_eq_default run ' ' (by omega)] at hat
    exact absurd hat (by decide)

/-- The email matcher fails on all-`x` strings (no `@` occurs). -/
theorem matchEmailAt_none_x (u : PyStr) (hne : u ≠ []) (hu : ∀ c ∈ u, c = 'x') :
    matchEmailAt u = none := by
  cases u with
  | nil => rfl
  | cons c cs =>
    have hc : c = 'x' := hu c (by simp)
    subst hc
    unfold matchEmailAt
    dsimp only
    rw [if_neg (show ¬(isPySpace 'x' = true) by decide)]
    have h' : ∀ ch ∈ ('x' :: cs).takeWhile (fun ch => ¬ isPySpace ch), ch ≠ '@' := by
      intro ch hch
      rw [hu ch ((List.takeWhile_sublist _).subset hch)]
      decide
    rw [emailViable_false_of_no_at (('x' :: cs).takeWhile (fun ch => ¬ isPySpace ch)) h']
    rfl

/-- Whitespace collapsing is the identity on whitespace-free strings. -/
theorem collapseWsGo_of_no_ws : ∀ (b : Bool) (t : PyStr),
    (∀ c ∈ t, isPySpace c = false) → collapseWsGo b t = t := by
  intro b t
  induction t generalizing b with
  | nil => intro _; rfl
  | cons c cs ih =>
    intro h
    unfold collapseWsGo
    rw [if_neg (by rw [h c (by simp)]; simp)]
    rw [ih false (fun x hx => h x (by simp [hx]))]

/-- The whitespace-collapse substitution is the identity on whitespace-free
strings. -/
theorem collapseWs_of_no_ws (t : PyStr) (h : ∀ c ∈ t, isPySpace c = false) :
    collapseWs t = t := collapseWsGo_of_no_ws false t h

/-- Mapping a pointwise-identity function is the identity. -/
theorem map_eq_self_of (f : Char → Char) (t : PyStr) (h : ∀ c ∈ t, f c = c) :
    t.map f = t := by
  induction t with
  | nil => rfl
  | cons a l ih =>
    rw [List.map_cons, h a (by simp), ih (fun c hc => h c (by simp [hc]))]

/-- The fifteen boilerplate substitutions are the identity on all-`x`
strings. -/
theorem boiler_foldl_id (t : PyStr) (hx : ∀ c ∈ t, c = 'x') :
    boilerMatchers.foldl (fun t m => reSub m t) t = t := by
  have hs : ∀ u, u ≠ [] → List.IsSuffix u t → ∀ c ∈ u, c = 'x' :=
    fun u _ hsuf c hc => hx c (hsuf.subset hc)
  unfold boilerMatchers
  simp only [List.foldl_cons, List.foldl_nil]
  rw [reSub_of_none _ t (fun u hu hsuf => matchLitCI_none_x _ u hu (hs u hu hsuf) (by decide))]
  rw [reSub_of_none _ t (fun u hu hsuf => matchLitCI_none_x _ u hu (hs u hu hsuf) (by decide))]
  rw [reSub_of_none _ t (fun u hu hsuf => matchLitCI_none_x _ u hu (hs u hu hsuf) (by decide))]
  rw [reSub_of_none _ t (fun u hu hsuf => matchFollowUs_none_x u hu (hs u hu hsuf))]
  rw [reSub_of_none _ t (fun u hu hsuf => matchCopyright_none_x u hu (hs u hu hsuf))]
  rw [reSub_of_none _ t (fun u hu hsuf => matchLazyTail_none_x _ u hu (hs u hu hsuf) (by decide))]
  rw [reSub_of_none _ t (fun u hu hsuf => matchLitCI_none_x _ u hu (hs u hu hsuf) (by decide))]
  rw [reSub_of_none _ t (fun u hu hsuf => matchLitCI_none_x _ u hu (hs u hu hsuf) (by decide))]
  rw [reSub_of_none _ t (fun u hu hsuf => matchLitCI_none_x _ u hu (hs u hu hsuf) (by decide))]
  rw [reSub_of_none _ t (fun u hu hsuf => matchSignUp_none_x u hu (hs u hu hsuf))]
  rw [reSub_of_none _ t (fun u hu hsuf => matchLazyTail_none_x _ u hu (hs u hu hsuf) (by decide))]
  rw [reSub_of_none _ t (fun u hu hsuf => matchLitCI_none_x _ u hu (hs u hu hsuf) (by decide))]
  rw [reSub_of_none _ t (fun u hu hsuf => matchLitCI_none_x _ u hu (hs u hu hsuf) (by decide))]
  rw [reSub_of_none _ t (fun u hu hsuf => matchLazyTail_none_x _ u hu (hs u hu hsuf) (by decide))]
  rw [reSub_of_none _ t (fun u hu hsuf => matchLazyTail_none_x _ u hu (hs u hu hsuf) (by decide))]

/-- Evaluation of `_clean_text` on a run of `n` letters `x`: every
substitution is the identity, so the result is the run itself, truncated to
50000 characters plus an ellipsis when it exceeds the maximum length. -/
theorem cleanText_replicate (n : Nat) :
    clean_text (List.replicate n 'x') =
      if maxContentLength < n then
        List.replicate maxContentLength 'x' ++ "...".data
      else List.replicate n 'x' := by
  have hx : ∀ c ∈ List.replicate n 'x', c = 'x' := fun c hc => List.eq_of_mem_replicate hc
  have hnws : ∀ c ∈ List.replicate n 'x', isPySpace c = false := by
    intro c hc
    rw [hx c hc]
    rfl
  unfold clean_text
  dsimp only
  rw [collapseWs_of_no_ws _ hnws]
  rw [boiler_foldl_id _ hx]
  rw [reSub_of_none _ _ (fun u hu hsuf => matchUrlAt_none_x u hu
    (fun c hc => hx c (hsuf.subset hc)))]
  rw [reSub_of_none _ _ (fun u hu hsuf => matchEmailAt_none_x u hu
    (fun c hc => hx c (hsuf.subset hc)))]
  rw [map_eq_self_of _ _ (by
    intro c hc
    rw [if_pos]
    left
    rw [hx c hc]
    decide)]
  rw [collapseWs_of_no_ws _ hnws]
  rw [List.length_replicate]
  split
  · next hgt =>
    rw [List.take_replicate]
    rw [min_eq_left (by omega)]
    apply pyStrip_of_no_ws
    intro c hc
    rcases List.mem_append.mp hc with hc | hc
    · rw [List.eq_of_mem_replicate hc]
      rfl
    · fin_cases hc <;> rfl
  · apply pyStrip_of_no_ws
    exact hnws

/-- The final truncation step emits at most the maximum content length plus
the three ellipsis characters. -/
theorem trunc_length_le (t : PyStr) :
    (if maxContentLength < t.length then t.take maxContentLength ++ "...".data
     else t).length ≤ maxContentLength + 3 := by
  split
  · rw [List.length_append]
    have h1 := List.length_take_le maxContentLength t
    have h3 : ("...".data).length = 3 := rfl
    omega
  · next h =>
    omega

/-- Output of `_clean_text` never exceeds the maximum content length plus
the three ellipsis characters. -/
theorem clean_text_length_le (t : PyStr) :
    (clean_text t).length ≤ maxContentLength + 3 := by
  unfold clean_text
  dsimp only
  exact le_trans (pyStrip_length_le _) (trunc_length_le _)

/-- A successful `_extract_clean_content` result respects both content
length bounds. -/
theorem extract_clean_content_some (soup : SoupOracle) (html : PyStr)
    (tc : PyStr × PyStr) (h : extract_clean_content soup html = some tc) :
    minContentLength ≤ tc.2.length ∧ tc.2.length ≤ maxContentLength + 3 := by
  unfold extract_clean_content at h
  cases hs : soup html with
  | error e =>
    rw [hs] at h
    cases h
  | ok doc =>
    rw [hs] at h
    dsimp only at h
    rcases le_or_lt minContentLength ((clean_text (selectedContent doc)).length) with hge | hlt
    · rw [if_pos hge, Option.some_inj] at h
      have h2 : tc.2 = clean_text (selectedContent doc) := by
        rw [← h]
      rw [h2]
      exact ⟨hge, clean_text_length_le (selectedContent doc)⟩
    · rw [if_neg (not_le.mpr hlt)] at h
      cases h

/-- Every `ExtractedContent` built by `_extract_single_url` has `word_count`
equal to the number of whitespace-delimited tokens of its content and
content length between the 200-character minimum and the truncation bound. -/
theorem extract_single_url_invariants (soup : SoupOracle)
    (fetch : SearchResult → FetchOutcome) (sr : SearchResult)
    (ec : ExtractedContent) (h : extract_single_url soup fetch sr = some ec) :
    ec.word_count = (pySplitWs ec.content).length ∧
    minContentLength ≤ ec.content.length ∧
    ec.content.length ≤ maxContentLength + 3 := by
  unfold extract_single_url at h
  split at h
  · cases h
  · split at h
    · cases h
    · split at h
      · cases h
      · split at h
        · cases h
        · split at h
          · cases h
          · next tc heq =>
            cases h
            have hb := extract_clean_content_some _ _ _ heq
            exact ⟨rfl, hb.1, hb.2⟩

/-- C9 (amended): every `ExtractedContent` built by the extractor — by a
single URL extraction, and hence every element of the `extract_multiple`
output — has `word_count` equal to the number of whitespace-delimited tokens
of its content, content length at least the 200-character minimum (shorter
cleaned text is rejected before construction), and content length at most
50,003 characters — the 50,000-character maximum plus the three characters
of the appended ellipsis, which the truncation adds on top of the maximum. -/
theorem C9_amended :
    (∀ (soup : SoupOracle) (fetch : SearchResult → FetchOutcome)
       (sr : SearchResult) (ec : ExtractedContent),
      extract_single_url soup fetch sr = some ec →
      ec.word_count = (pySplitWs ec.content).length ∧
      minContentLength ≤ ec.content.length ∧
      ec.content.length ≤ maxContentLength + 3) ∧
    (∀ (soup : SoupOracle) (fetch : SearchResult → FetchOutcome)
       (srs : List SearchResult) (ec : ExtractedContent),
      ec ∈ extract_multiple soup fetch srs →
      ec.word_count = (pySplitWs ec.content).length ∧
      minContentLength ≤ ec.content.length ∧
      ec.content.length ≤ maxContentLength + 3) := by
  refine ⟨extract_single_url_invariants, ?_⟩
  intro soup fetch srs ec hmem
  unfold extract_multiple at hmem
  have hmem2 : ec ∈ srs.filterMap (extract_single_url soup fetch) :=
    List.mem_of_mem_filter hmem
  rcases List.mem_filterMap.mp hmem2 with ⟨sr, _, hec⟩
  exact extract_single_url_invariants soup fetch sr ec hec

/-- Evaluation of `_extract_clean_content` with the replicate soup: the
selector text is long enough, so no body fallback occurs and the cleaned
selector text is returned under the title `T`. -/
theorem extract_clean_content_replicate (n : Nat) (hn : minContentLength ≤ n) :
    extract_clean_content (soupReplicate n) [] =
      some ("T".data, clean_text (List.replicate n 'x')) := by
  have hsel : selectedContent
      { titleText := some ("T".data), selectorText := some (List.replicate n 'x')
      , bodyText := none } = List.replicate n 'x' := by
    unfold selectedContent
    dsimp only
    rw [if_neg ?_]
    rintro (hnil | hlt)
    · have hlen := congrArg List.length hnil
      rw [List.length_replicate] at hlen
      have h200 : minContentLength = 200 := rfl
      simp only [List.length_nil] at hlen
      omega
    · rw [List.length_replicate] at hlt
      omega
  have htitle : titleOf
      { titleText := some ("T".data), selectorText := some (List.replicate n 'x')
      , bodyText := none } = "T".data := by
    unfold titleOf
    dsimp only
    rw [show pyStrip ("T".data) = "T".data from by decide]
    rw [show collapseWs ("T".data) = "T".data from by decide]
    rw [if_neg (by decide)]
  have hclen : minContentLength ≤ (clean_text (List.replicate n 'x')).length := by
    rw [cleanText_replicate]
    have h50 : maxContentLength = 50000 := rfl
    have h200 : minContentLength = 200 := rfl
    have h3 : ("...".data).length = 3 := rfl
    split
    · rw [List.length_append, List.length_replicate]
      omega
    · rw [List.length_replicate]
      exact hn
  unfold extract_clean_content
  rw [show soupReplicate n [] = Except.ok
    { titleText := some ("T".data), selectorText := some (List.replicate n 'x')
    , bodyText := none } from rfl]
  dsimp only
  rw [hsel, htitle, if_pos hclen]

/-- Evaluation of `_extract_single_url` with the replicate soup over a
successful HTML fetch. -/
theorem extract_single_url_replicate (n : Nat) (hn : minContentLength ≤ n) :
    extract_single_url (soupReplicate n) fetchHtml c9SearchResult =
      some { title := "T".data
           , url := c9SearchResult.url
           , content := clean_text (List.replicate n 'x')
           , domain := c9SearchResult.domain
           , word_count := (pySplitWs (clean_text (List.replicate n 'x'))).length } := by
  unfold extract_single_url
  rw [show fetchHtml c9SearchResult =
    FetchOutcome.resp 200 (some ("text/html".data)) (Except.ok []) from rfl]
  dsimp only
  rw [if_neg (by decide), if_neg (by decide)]
  rw [extract_clean_content_replicate n hn]

/-- Length of the cleaned 50001-character page text: the 50,000-character
cap plus the three-character ellipsis. -/
theorem clean_text_replicate_50001_length :
    (clean_text (List.replicate 50001 'x')).length = 50003 := by
  rw [cleanText_replicate, if_pos (by decide), List.length_append, List.length_replicate]
  rfl

/-- C9 counterexample: a selector text of 50001 characters is truncated to
50000 characters plus a three-character ellipsis, so the constructed
`ExtractedContent` has content length 50003 — strictly above the
50,000-character maximum the claim states as the upper bound. -/
theorem C9_counterexample :
    (extract_single_url c9Soup fetchHtml c9SearchResult).map
      (fun ec => ec.content.length) = some 50003 ∧
    ¬ (50003 ≤ maxContentLength) := by
  constructor
  · rw [show c9Soup = soupReplicate 50001 from rfl,
      extract_single_url_replicate 50001 (by decide)]
    simp only [Option.map_some']
    rw [clean_text_replicate_50001_length]
  · decide

/-- C9 witness: the amended theorem applied to a concrete successful
extraction of a 200-character page text. -/
theorem C9_witness :
    ∃ ec, extract_single_url c9SoupSmall fetchHtml c9SearchResult = some ec ∧
      ec.word_count = (pySplitWs ec.content).length ∧
      minContentLength ≤ ec.content.length ∧
      ec.content.length ≤ maxContentLength + 3 := by
  have h := extract_single_url_replicate 200 (by decide)
  exact ⟨_, h, C9_amended.1 _ _ _ _ h⟩
